import Mathlib

/-!
# Verification of the simgas serverless backend

Shallow embedding of the simgas repository (Netlify functions that generate
simulated blood-gas reports) and proofs about the claims of its
specification.

JavaScript strings are modelled as `List Char` (one entry per UTF-16 code
unit; every character used by this code base lies in the BMP, so code units
and code points coincide).  Effectful handlers are modelled as pure
functions over explicit environments that supply the outcomes of the
external collaborators (the blob store, the generative-language API, the
clock and the random number generator), and return the HTTP response
together with the list of Job Store writes they performed.
-/

namespace Simgas

/-- Abbreviation for the `List Char` model of a JavaScript string. -/
abbrev Str := List Char

/-- Coerce a Lean string literal into the `List Char` model. -/
def str (s : String) : Str := s.data

/-! ## Basic JavaScript string helpers -/

/-- The character class of JavaScript `\s` (and of `String.prototype.trim`):
whitespace and line terminators.  Astral/unicode catch-alls beyond NBSP are
irrelevant to this code base. -/
def isSpaceJs (c : Char) : Bool :=
  c = ' ' ∨ c = '\t' ∨ c = '\n' ∨ c = '\r' ∨ c = Char.ofNat 11 ∨
  c = Char.ofNat 12 ∨ c = Char.ofNat 160 ∨ c = Char.ofNat 0xfeff

/-- ASCII decimal digit, the JavaScript `\d` class. -/
def isDigitJs (c : Char) : Bool := '0' ≤ c ∧ c ≤ '9'

/-- A JavaScript regex word character `\w`: `[A-Za-z0-9_]`. -/
def isWordChar (c : Char) : Bool :=
  ('a' ≤ c ∧ c ≤ 'z') ∨ ('A' ≤ c ∧ c ≤ 'Z') ∨ isDigitJs c ∨ c = '_'

/-- ASCII letter, the `[a-zA-Z]` class of the fence-stripping regex. -/
def isAsciiLetter (c : Char) : Bool :=
  ('a' ≤ c ∧ c ≤ 'z') ∨ ('A' ≤ c ∧ c ≤ 'Z')

/-- `String.prototype.trim`. -/
def jsTrim (s : Str) : Str :=
  ((s.dropWhile isSpaceJs).reverse.dropWhile isSpaceJs).reverse

/-- `String.prototype.padEnd(width, ' ')`. -/
def padEnd (s : Str) (width : Nat) : Str :=
  s ++ List.replicate (width - s.length) ' '

/-- `String.prototype.split(' ')`: cut at every single space, keeping empty
segments; the empty string yields one empty segment. -/
def splitOnSpace : Str → List Str
  | [] => [[]]
  | c :: cs =>
    if c = ' ' then [] :: splitOnSpace cs
    else match splitOnSpace cs with
      | [] => [[c]]
      | w :: ws => (c :: w) :: ws

/-- `Nat.repr` digits as a `Str`, for template interpolation of numbers. -/
def natToStr (n : Nat) : Str := (Nat.repr n).data

/-- `Int` printed the way JavaScript prints an integral number. -/
def intToStr (i : Int) : Str := (Int.repr i).data

/-- `num.toString().padStart(2, '0')` for the day/month of the generated
date of birth. -/
def pad2 (n : Nat) : Str :=
  let d := natToStr n
  List.replicate (2 - d.length) '0' ++ d

/-! ## Substring search (used to state "the report contains …") -/

/-- `pat` occurs at the start of `s`. -/
def isPrefixSeq : Str → Str → Bool
  | [], _ => true
  | _ :: _, [] => false
  | a :: as, b :: bs => a = b && isPrefixSeq as bs

/-- `pat` occurs somewhere inside `s`. -/
def containsSeq (pat : Str) : Str → Bool
  | [] => isPrefixSeq pat []
  | c :: cs => isPrefixSeq pat (c :: cs) || containsSeq pat cs

/-- Propositional form of substring occurrence. -/
def SeqIn (pat s : Str) : Prop := ∃ a b, s = a ++ pat ++ b

theorem isPrefixSeq_sound {pat s : Str} (h : isPrefixSeq pat s = true) :
    ∃ b, s = pat ++ b := by
  induction pat generalizing s with
  | nil => exact ⟨s, rfl⟩
  | cons a as ih =>
    cases s with
    | nil => simp [isPrefixSeq] at h
    | cons b bs =>
      simp only [isPrefixSeq, Bool.and_eq_true, decide_eq_true_eq] at h
      obtain ⟨rfl, h2⟩ := h
      obtain ⟨tail, htail⟩ := ih h2
      exact ⟨tail, by simp [htail]⟩

theorem containsSeq_sound {pat s : Str} (h : containsSeq pat s = true) :
    SeqIn pat s := by
  induction s with
  | nil =>
    obtain ⟨b, hb⟩ := isPrefixSeq_sound h
    exact ⟨[], b, hb⟩
  | cons c cs ih =>
    simp only [containsSeq, Bool.or_eq_true] at h
    rcases h with h | h
    · obtain ⟨b, hb⟩ := isPrefixSeq_sound h
      exact ⟨[], b, hb⟩
    · obtain ⟨a, b, hab⟩ := ih h
      exact ⟨c :: a, b, by simp [hab]⟩

theorem SeqIn.of_middle {pat mid : Str} (a c : Str) (h : SeqIn pat mid) :
    SeqIn pat (a ++ mid ++ c) := by
  obtain ⟨x, y, hxy⟩ := h
  exact ⟨a ++ x, y ++ c, by simp [hxy]⟩

/-! ## `wordWrap` (generate-report-process-background.js, lines 4–18)

```js
function wordWrap(text, maxWidth) {
    const lines = [];
    let currentLine = '';
    const words = text.split(' ');
    for (const word of words) {
        if ((currentLine + ' ' + word).length > maxWidth) {
            lines.push(currentLine);
            currentLine = word;
        } else {
            currentLine += (currentLine ? ' ' : '') + word;
        }
    }
    if (currentLine) lines.push(currentLine);
    return lines;
}
```
-/

def wordWrapGo (maxWidth : Nat) : List Str → Str → List Str
  | [], currentLine => if currentLine ≠ [] then [currentLine] else []
  | w :: ws, currentLine =>
    if currentLine.length + 1 + w.length > maxWidth then
      currentLine :: wordWrapGo maxWidth ws w
    else
      wordWrapGo maxWidth ws
        (currentLine ++ (if currentLine ≠ [] then [' '] else []) ++ w)

def wordWrap (text : Str) (maxWidth : Nat) : List Str :=
  wordWrapGo maxWidth (splitOnSpace text) []

/-- One line of the boxed free-text section of the report
(`│ ${line.padEnd(54, ' ')} │`, generalised over the width). -/
def boxLine (line : Str) (width : Nat) : Str :=
  str "│ " ++ padEnd line width ++ str " │"

theorem wordWrapGo_bound (maxWidth : Nat) (ws : List Str) :
    ∀ cur : Str, cur.length ≤ maxWidth →
      (∀ w ∈ ws, w.length ≤ maxWidth) →
      ∀ l ∈ wordWrapGo maxWidth ws cur, l.length ≤ maxWidth := by
  induction ws with
  | nil =>
    intro cur hcur _ l hl
    simp only [wordWrapGo] at hl
    split at hl
    · simp only [List.mem_singleton] at hl; subst hl; exact hcur
    · simp at hl
  | cons w ws ih =>
    intro cur hcur hws l hl
    have hw : w.length ≤ maxWidth := hws w (by simp)
    have hws' : ∀ w' ∈ ws, w'.length ≤ maxWidth :=
      fun w' hw' => hws w' (by simp [hw'])
    simp only [wordWrapGo] at hl
    split at hl
    · rcases List.mem_cons.mp hl with rfl | hl'
      · exact hcur
      · exact ih w hw hws' l hl'
    · rename_i hfits
      refine ih _ ?_ hws' l hl
      rcases (em (cur = [])) with rfl | hne
      · simpa using hw
      · have hle : cur.length + 1 + w.length ≤ maxWidth := Nat.le_of_not_lt hfits
        rw [if_pos hne]
        simp only [List.length_append, List.length_cons, List.length_nil]
        omega

/-- C10: if every space-separated word of `text` fits in `maxWidth`, every
line produced by `wordWrap` has length at most `maxWidth`, and padding a
line to the width gives exactly the width, so every boxed line has the
fixed width `maxWidth + 4`. -/
theorem wordWrap_width (text : Str) (maxWidth : Nat)
    (hpos : 1 ≤ maxWidth)
    (hwords : ∀ w ∈ splitOnSpace text, w.length ≤ maxWidth) :
    ∀ l ∈ wordWrap text maxWidth,
      l.length ≤ maxWidth ∧ (padEnd l maxWidth).length = maxWidth ∧
      (boxLine l maxWidth).length = maxWidth + 4 := by
  intro l hl
  have hb : l.length ≤ maxWidth :=
    wordWrapGo_bound maxWidth (splitOnSpace text) [] (by simp) hwords l hl
  have hpad : (padEnd l maxWidth).length = maxWidth := by
    simp only [padEnd, List.length_append, List.length_replicate]
    omega
  refine ⟨hb, hpad, ?_⟩
  have h2 : (str "│ ").length = 2 := rfl
  have h3 : (str " │").length = 2 := rfl
  simp only [boxLine, List.length_append, hpad, h2, h3]
  omega

/-- Witness for C10 at a concrete input. -/
theorem wordWrap_width_witness :
    (1 ≤ 5 ∧ ∀ w ∈ splitOnSpace (str "to wrap or not"), w.length ≤ 5) ∧
    ∀ l ∈ wordWrap (str "to wrap or not") 5,
      l.length ≤ 5 ∧ (padEnd l 5).length = 5 ∧ (boxLine l 5).length = 5 + 4 :=
  ⟨⟨by decide, by decide⟩,
   wordWrap_width (str "to wrap or not") 5 (by decide) (by decide)⟩

/-! ## JSON values and `JSON.parse`

`JSON.parse` is host functionality used by the sources; it is embedded as a
recursive-descent parser of the ECMA-404 grammar.  Numbers are carried as
their source lexeme (none of the verified code computes with them). -/

inductive Json where
  | null
  | bool (b : Bool)
  | num (lexeme : Str)
  | str (s : Str)
  | arr (elems : List Json)
  | obj (fields : List (Str × Json))
deriving Repr

/-- JSON insignificant whitespace. -/
def isJsonWs (c : Char) : Bool := c = ' ' ∨ c = '\t' ∨ c = '\n' ∨ c = '\r'

def skipWs (s : Str) : Str := s.dropWhile isJsonWs

def jpHexVal (c : Char) : Option Nat :=
  if isDigitJs c then some (c.toNat - '0'.toNat)
  else if 'a' ≤ c ∧ c ≤ 'f' then some (c.toNat - 'a'.toNat + 10)
  else if 'A' ≤ c ∧ c ≤ 'F' then some (c.toNat - 'A'.toNat + 10)
  else none

/-- Body of a JSON string literal (after the opening quote); returns the
decoded content and the input following the closing quote.  `fuel` is an
upper bound on the remaining length. -/
def jpStrBody : Nat → Str → Option (Str × Str)
  | 0, _ => none
  | _, [] => none
  | fuel + 1, c :: cs =>
    if c = '"' then some ([], cs)
    else if c = '\\' then
      match cs with
      | [] => none
      | e :: cs2 =>
        let dec :=
          if e = '"' then some ('"', cs2)
          else if e = '\\' then some ('\\', cs2)
          else if e = '/' then some ('/', cs2)
          else if e = 'b' then some (Char.ofNat 8, cs2)
          else if e = 'f' then some (Char.ofNat 12, cs2)
          else if e = 'n' then some ('\n', cs2)
          else if e = 'r' then some ('\r', cs2)
          else if e = 't' then some ('\t', cs2)
          else if e = 'u' then
            match cs2 with
            | h1 :: h2 :: h3 :: h4 :: cs3 =>
              match jpHexVal h1, jpHexVal h2, jpHexVal h3, jpHexVal h4 with
              | some a, some b, some c3, some d =>
                some (Char.ofNat (((a * 16 + b) * 16 + c3) * 16 + d), cs3)
              | _, _, _, _ => none
            | _ => none
          else none
        match dec with
        | some (ch, rest) =>
          match jpStrBody fuel rest with
          | some (content, r) => some (ch :: content, r)
          | none => none
        | none => none
    else if c.toNat < 0x20 then none
    else
      match jpStrBody fuel cs with
      | some (content, r) => some (c :: content, r)
      | none => none

/-- A JSON number literal: `-? (0 | [1-9][0-9]*) (. [0-9]+)? ([eE][+-]?[0-9]+)?`;
returns the lexeme and the rest of the input. -/
def jpNum (s : Str) : Option (Str × Str) := do
  let (sign, s1) :=
    match s with
    | '-' :: t => ((['-'] : Str), t)
    | _ => (([] : Str), s)
  let (ip, r1) ← (match s1 with
    | '0' :: t => some ((['0'] : Str), t)
    | c :: t =>
      if '1' ≤ c ∧ c ≤ '9' then
        some (c :: t.takeWhile isDigitJs, t.drop (t.takeWhile isDigitJs).length)
      else none
    | [] => none : Option (Str × Str))
  let (fp, r2) ← (match r1 with
    | '.' :: t =>
      let ds := t.takeWhile isDigitJs
      if ds = [] then none else some ('.' :: ds, t.drop ds.length)
    | _ => some (([] : Str), r1) : Option (Str × Str))
  let (ep, r3) ← (match r2 with
    | c :: t =>
      if c = 'e' ∨ c = 'E' then
        let (sg, t2) : Str × Str :=
          match t with
          | '+' :: u => (['+'], u)
          | '-' :: u => (['-'], u)
          | _ => ([], t)
        let ds := t2.takeWhile isDigitJs
        if ds = [] then none else some (c :: (sg ++ ds), t2.drop ds.length)
      else some (([] : Str), r2)
    | [] => some (([] : Str), r2) : Option (Str × Str))
  some (sign ++ ip ++ fp ++ ep, r3)

mutual

/-- A JSON value at the head of the (whitespace-stripped) input. -/
def jpVal : Nat → Str → Option (Json × Str)
  | 0, _ => none
  | fuel + 1, s =>
    match s with
    | 'n' :: 'u' :: 'l' :: 'l' :: r => some (.null, r)
    | 't' :: 'r' :: 'u' :: 'e' :: r => some (.bool true, r)
    | 'f' :: 'a' :: 'l' :: 's' :: 'e' :: r => some (.bool false, r)
    | '"' :: r =>
      match jpStrBody r.length r with
      | some (content, rest) => some (.str content, rest)
      | none => none
    | '{' :: r =>
      match skipWs r with
      | '}' :: r2 => some (.obj [], r2)
      | r1 =>
        match jpMembers fuel r1 with
        | some (fields, rest) => some (.obj fields, rest)
        | none => none
    | '[' :: r =>
      match skipWs r with
      | ']' :: r2 => some (.arr [], r2)
      | r1 =>
        match jpElems fuel r1 with
        | some (elems, rest) => some (.arr elems, rest)
        | none => none
    | _ =>
      match jpNum s with
      | some (lex, rest) => some (.num lex, rest)
      | none => none

/-- A non-empty member list of a JSON object, up to and including `}`. -/
def jpMembers : Nat → Str → Option (List (Str × Json) × Str)
  | 0, _ => none
  | fuel + 1, s =>
    match s with
    | '"' :: r =>
      match jpStrBody r.length r with
      | some (key, rest) =>
        match skipWs rest with
        | ':' :: r2 =>
          match jpVal fuel (skipWs r2) with
          | some (v, rest2) =>
            match skipWs rest2 with
            | ',' :: r3 =>
              match jpMembers fuel (skipWs r3) with
              | some (fields, rest3) => some ((key, v) :: fields, rest3)
              | none => none
            | '}' :: r3 => some ([(key, v)], r3)
            | _ => none
          | none => none
        | _ => none
      | none => none
    | _ => none

/-- A non-empty element list of a JSON array, up to and including `]`. -/
def jpElems : Nat → Str → Option (List Json × Str)
  | 0, _ => none
  | fuel + 1, s =>
    match jpVal fuel s with
    | some (v, rest) =>
      match skipWs rest with
      | ',' :: r2 =>
        match jpElems fuel (skipWs r2) with
        | some (elems, rest2) => some (v :: elems, rest2)
        | none => none
      | ']' :: r2 => some ([v], r2)
      | _ => none
    | none => none

end

/-- `JSON.parse`: a single JSON value surrounded by optional whitespace.
The fuel `2·|s| + 2` dominates the recursion depth, which consumes at least
one character per nesting level. -/
def jsonParse (s : Str) : Option Json :=
  match jpVal (2 * s.length + 2) (skipWs s) with
  | some (v, rest) => if skipWs rest = [] then some v else none
  | none => none

/-! ## Response parsing (src/unnamed/part_007, lines 216–240)

```js
function stripCodeFences(s) {
  if (!s) return '';
  const t = s.trim();
  return t.startsWith('```')
    ? t.replace(/^```[a-zA-Z]*\n?/, '').replace(/```\s*$/, '').trim()
    : t;
}
```
-/

/-- The first `replace`: drop a leading fence `^```[a-zA-Z]*\n?`. -/
def dropLeadingFence (t : Str) : Str :=
  if t.take 3 = str "```" then
    match (t.drop 3).dropWhile isAsciiLetter with
    | '\n' :: r2 => r2
    | r => r
  else t

/-- The second `replace`: remove the leftmost occurrence of a backtick
fence followed only by whitespace up to the end (`/```\s*$/`). -/
def dropTrailingFence : Str → Str
  | [] => []
  | c :: cs =>
    if c = '`' ∧ cs.take 2 = ['`', '`'] ∧ (cs.drop 2).all isSpaceJs then []
    else c :: dropTrailingFence cs

def stripCodeFences (s : Str) : Str :=
  if s = [] then []
  else
    let t := jsTrim s
    if t.take 3 = str "```" then jsTrim (dropTrailingFence (dropLeadingFence t))
    else t

/-- ```js
function extractFirstJsonObject(s) {
  let depth = 0; let start = -1;
  for (let i = 0; i < s.length; i++) {
    const c = s[i];
    if (c === '{') { if (depth === 0) start = i; depth++; }
    else if (c === '}') { depth--; if (depth === 0 && start !== -1) return s.slice(start, i + 1); }
  }
  return null;
}
```
The depth is an `Int` because the source lets it go negative on stray
closing braces. -/
def extractFJOGo : Str → Nat → Int → Option Nat → Option (Nat × Nat)
  | [], _, _, _ => none
  | c :: cs, i, depth, start =>
    if c = '{' then
      extractFJOGo cs (i + 1) (depth + 1) (if depth = 0 then some i else start)
    else if c = '}' then
      match start with
      | some st =>
        if depth - 1 = 0 then some (st, i)
        else extractFJOGo cs (i + 1) (depth - 1) (some st)
      | none => extractFJOGo cs (i + 1) (depth - 1) none
    else extractFJOGo cs (i + 1) depth start

def extractFirstJsonObject (s : Str) : Option Str :=
  match extractFJOGo s 0 0 none with
  | some (st, i) => some ((s.drop st).take (i + 1 - st))
  | none => none

/-- The malformed-response error thrown by `safeParseModelJson`; its
message embeds `JSON.stringify` of this diagnostic snippet
(`String(text).slice(0, 240)`). -/
structure MalformedError where
  snippet : Str
deriving Repr, DecidableEq

/-- ```js
function safeParseModelJson(text) {
  const raw = stripCodeFences(text);
  try { return JSON.parse(raw); } catch (e1) {
    const candidate = extractFirstJsonObject(raw);
    if (candidate) {
      try { return JSON.parse(candidate); } catch (e2) {}
    }
    const snippet = String(text).slice(0, 240);
    throw new Error(`Model did not return valid JSON. ...`);
  }
}
```
(`candidate`, when non-null, always starts with an opening brace and is
never empty, so the `if (candidate)` truthiness test is its null test.) -/
def safeParseModelJson (text : Str) : Except MalformedError Json :=
  let raw := stripCodeFences text
  match jsonParse raw with
  | some v => .ok v
  | none =>
    match extractFirstJsonObject raw with
    | some candidate =>
      match jsonParse candidate with
      | some v => .ok v
      | none => .error ⟨text.take 240⟩
    | none => .error ⟨text.take 240⟩

/-- Discriminator: is this JSON value an object? -/
def Json.isObjB : Json → Bool
  | .obj _ => true
  | _ => false

/-- C2, counterexample: on the input `42` the parser succeeds and returns
the (non-object) JSON number `42`, although no valid JSON *object* can be
recovered by either stage — the claim would require a malformed-response
failure here. -/
theorem safeParseModelJson_nonobject_success :
    safeParseModelJson (str "42") = .ok (.num (str "42")) ∧
    Json.isObjB (.num (str "42")) = false ∧
    extractFirstJsonObject (stripCodeFences (str "42")) = none :=
  ⟨rfl, rfl, rfl⟩

/-- C2 (amended): `safeParseModelJson` returns `v` exactly when the direct
parse of the fence-stripped text yields `v`, or that parse fails and the
first balanced brace span parses to `v`; it fails with the
malformed-response error (carrying the 240-character prefix) exactly when
both stages fail to recover a JSON value; and it behaves as specified on
the four documented examples. -/
theorem safeParseModelJson_spec :
    (∀ s v, safeParseModelJson s = .ok v ↔
       (jsonParse (stripCodeFences s) = some v ∨
        (jsonParse (stripCodeFences s) = none ∧
         (extractFirstJsonObject (stripCodeFences s)).bind jsonParse = some v))) ∧
    (∀ s e, safeParseModelJson s = .error e ↔
       (jsonParse (stripCodeFences s) = none ∧
        (extractFirstJsonObject (stripCodeFences s)).bind jsonParse = none ∧
        e = ⟨s.take 240⟩)) ∧
    safeParseModelJson (str "\x7b\"a\":1\x7d") =
      .ok (.obj [(str "a", .num (str "1"))]) ∧
    safeParseModelJson (str "```json\n\x7b\"a\":1\x7d\n```") =
      .ok (.obj [(str "a", .num (str "1"))]) ∧
    safeParseModelJson (str "Sure! \x7b\"a\":1\x7d Hope that helps.") =
      .ok (.obj [(str "a", .num (str "1"))]) ∧
    safeParseModelJson (str "not json at all") =
      .error ⟨str "not json at all"⟩ := by
  refine ⟨?_, ?_, rfl, rfl, rfl, rfl⟩
  · intro s v
    simp only [safeParseModelJson]
    cases h1 : jsonParse (stripCodeFences s) with
    | some w => simp [h1]
    | none =>
      cases h2 : extractFirstJsonObject (stripCodeFences s) with
      | none => simp [h2]
      | some c =>
        cases h3 : jsonParse c with
        | some w => simp [h2, h3]
        | none => simp [h2, h3]
  · intro s e
    simp only [safeParseModelJson]
    cases h1 : jsonParse (stripCodeFences s) with
    | some w => simp [h1]
    | none =>
      cases h2 : extractFirstJsonObject (stripCodeFences s) with
      | none => simp [h2, eq_comm]
      | some c =>
        cases h3 : jsonParse c with
        | some w => simp [h2, h3]
        | none => simp [h2, h3, eq_comm]

/-- C8, counterexample: for the 15-character input `not json at all` the
malformed-response error carries the *entire* offending text, not a proper
prefix — the claim's "never the full text" fails for inputs of at most 240
characters. -/
theorem malformed_snippet_full_text :
    safeParseModelJson (str "not json at all") =
      .error ⟨str "not json at all"⟩ ∧
    (str "not json at all").length ≤ 240 := ⟨rfl, by decide⟩

/-- C8 (amended): the malformed-response error always carries exactly the
first `min(240, |text|)` characters of the offending text — a prefix of at
most 240 characters, which is a proper prefix whenever the text is longer
than 240 characters. -/
theorem malformed_snippet_bounded (s : Str) (e : MalformedError)
    (h : safeParseModelJson s = .error e) :
    e.snippet = s.take 240 ∧ e.snippet.length ≤ 240 := by
  have hs : e = ⟨s.take 240⟩ := by
    simp only [safeParseModelJson] at h
    cases h1 : jsonParse (stripCodeFences s) with
    | some w => simp [h1] at h
    | none =>
      cases h2 : extractFirstJsonObject (stripCodeFences s) with
      | none =>
        simp only [h1, h2] at h
        exact ((Except.error.injEq _ _).mp h).symm
      | some c =>
        cases h3 : jsonParse c with
        | some w => simp [h1, h2, h3] at h
        | none =>
          simp only [h1, h2, h3] at h
          exact ((Except.error.injEq _ _).mp h).symm
  subst hs
  refine ⟨rfl, ?_⟩
  simp only [List.length_take]
  omega

set_option maxRecDepth 8000 in
/-- Witness for C8 at a 300-character offending text. -/
theorem malformed_snippet_bounded_witness :
    (MalformedError.mk (List.replicate 240 'x')).snippet =
      (List.replicate 300 'x').take 240 ∧
    (MalformedError.mk (List.replicate 240 'x')).snippet.length ≤ 240 :=
  malformed_snippet_bounded (List.replicate 300 'x')
    ⟨List.replicate 240 'x'⟩ (by rfl)

/-! ## Retry wrappers

The outbound HTTP call is modelled by an oracle `f : Nat → Outcome` giving
the outcome of the i-th fetch, and `Math.random()` jitter by an oracle
`rand : Nat → Nat` (milliseconds drawn before the i-th retry).  Each
wrapper returns its result together with the list of waits (in ms), in
order. -/

/-- Outcome of one `fetch`: an HTTP response with a status, or a rejected
promise (network-level exception) with a message. -/
inductive Outcome where
  | resp (status : Nat)
  | netErr (msg : Str)

/-- `Response.ok`: status in the range 200–299. -/
def respOk (status : Nat) : Bool := 200 ≤ status ∧ status < 300

inductive FetchRetryResult where
  | response (status : Nat)
  | null
  | thrown (msg : Str)
deriving Repr, DecidableEq

/-- Loop body of `fetchWithRetry` (src/unnamed/part_003, lines 5–42).
`remaining = maxRetries - attempt` is the loop's termination measure; the
source's `attempt >= maxRetries - 1` test on a caught fetch error is
`remaining = 1`, i.e. `r = 0` here.

```js
async function fetchWithRetry(url, payload, maxRetries = 3) {
    let attempt = 0;
    let delay = 1000;
    while (attempt < maxRetries) {
        try {
            const response = await fetch(url, {...});
            if (response.ok) return response;
            if (response.status === 429) {
                await new Promise(res => setTimeout(res, delay));
                delay *= 2; attempt++;
            } else { return response; }
        } catch (error) {
            if (attempt >= maxRetries - 1) throw error;
            await new Promise(res => setTimeout(res, delay));
            delay *= 2; attempt++;
        }
    }
    return null;
}
``` -/
def fetchWithRetryGo (f : Nat → Outcome) :
    (remaining attempt delay : Nat) → FetchRetryResult × List Nat
  | 0, _, _ => (.null, [])
  | r + 1, attempt, delay =>
    match f attempt with
    | .resp status =>
      if respOk status then (.response status, [])
      else if status = 429 then
        let (res, ds) := fetchWithRetryGo f r (attempt + 1) (delay * 2)
        (res, delay :: ds)
      else (.response status, [])
    | .netErr msg =>
      if r = 0 then (.thrown msg, [])
      else
        let (res, ds) := fetchWithRetryGo f r (attempt + 1) (delay * 2)
        (res, delay :: ds)

def fetchWithRetry (f : Nat → Outcome) (maxRetries : Nat := 3) :
    FetchRetryResult × List Nat :=
  fetchWithRetryGo f maxRetries 0 1000

inductive ApiErr where
  | network (msg : Str)
  | api (status : Nat)
deriving Repr, DecidableEq

/-- `makeApiCall` (src/unnamed/part_001, lines 159–186).  A rejected
`fetch` (network error) propagates immediately — there is no `try` around
it.  On success the handler reads the response JSON; only the status is
relevant here.

```js
const makeApiCall = async (retryCount = 0) => {
  const dataResponse = await fetch(apiURL, {...});
  if (dataResponse.status === 429 && retryCount < 5) {
    const delay = Math.pow(2, retryCount) * 1000 + Math.random() * 1000;
    await new Promise((res) => setTimeout(res, delay));
    return makeApiCall(retryCount + 1);
  }
  if (!dataResponse.ok) {
    throw new Error(`Google API Error: ...`);
  }
  return dataResponse.json();
};
``` -/
def makeApiCall (f : Nat → Outcome) (rand : Nat → Nat) (retryCount : Nat := 0) :
    Except ApiErr Nat × List Nat :=
  match f retryCount with
  | .netErr msg => (.error (.network msg), [])
  | .resp status =>
    if h : status = 429 ∧ retryCount < 5 then
      let d := 2 ^ retryCount * 1000 + rand retryCount
      let (res, ds) := makeApiCall f rand (retryCount + 1)
      (res, d :: ds)
    else if respOk status then (.ok status, [])
    else (.error (.api status), [])
termination_by 5 - retryCount
decreasing_by omega

/-- C3, counterexample: `makeApiCall` does not retry a network-level
exception — the very first rejected fetch propagates with no wait and no
further attempt, although the second attempt would have succeeded. -/
theorem makeApiCall_no_network_retry :
    makeApiCall
      (fun i => if i = 0 then .netErr (str "fetch failed") else .resp 200)
      (fun _ => 0) =
    (.error (.network (str "fetch failed")), []) := by
  rw [makeApiCall]
  norm_num

/-! ### Single-step unfolding lemmas for the two wrappers -/

theorem fetchGo_resp_done (f : Nat → Outcome) (r a d s : Nat)
    (h : f a = .resp s) (hs : respOk s = true) :
    fetchWithRetryGo f (r + 1) a d = (.response s, []) := by
  simp [fetchWithRetryGo, h, hs]

theorem fetchGo_429_step (f : Nat → Outcome) (r a d : Nat)
    (h : f a = .resp 429) :
    fetchWithRetryGo f (r + 1) a d =
      ((fetchWithRetryGo f r (a + 1) (d * 2)).1,
       d :: (fetchWithRetryGo f r (a + 1) (d * 2)).2) := by
  simp [fetchWithRetryGo, h, show respOk 429 = false from rfl]

theorem fetchGo_other_done (f : Nat → Outcome) (r a d s : Nat)
    (h : f a = .resp s) (hs : respOk s = false) (h429 : s ≠ 429) :
    fetchWithRetryGo f (r + 1) a d = (.response s, []) := by
  simp [fetchWithRetryGo, h, hs, h429]

theorem fetchGo_net_last (f : Nat → Outcome) (a d : Nat) (msg : Str)
    (h : f a = .netErr msg) :
    fetchWithRetryGo f 1 a d = (.thrown msg, []) := by
  simp [fetchWithRetryGo, h]

theorem fetchGo_net_step (f : Nat → Outcome) (r a d : Nat) (msg : Str)
    (h : f a = .netErr msg) (hr : r ≠ 0) :
    fetchWithRetryGo f (r + 1) a d =
      ((fetchWithRetryGo f r (a + 1) (d * 2)).1,
       d :: (fetchWithRetryGo f r (a + 1) (d * 2)).2) := by
  simp [fetchWithRetryGo, h, hr]

theorem makeApiCall_net (f : Nat → Outcome) (rand : Nat → Nat) (rc : Nat)
    (msg : Str) (h : f rc = .netErr msg) :
    makeApiCall f rand rc = (.error (.network msg), []) := by
  rw [makeApiCall]
  simp [h]

theorem makeApiCall_429_step (f : Nat → Outcome) (rand : Nat → Nat) (rc : Nat)
    (h : f rc = .resp 429) (hrc : rc < 5) :
    makeApiCall f rand rc =
      ((makeApiCall f rand (rc + 1)).1,
       (2 ^ rc * 1000 + rand rc) :: (makeApiCall f rand (rc + 1)).2) := by
  rw [makeApiCall]
  simp [h, hrc]

theorem makeApiCall_resp_done (f : Nat → Outcome) (rand : Nat → Nat)
    (rc s : Nat) (h : f rc = .resp s) (hno : ¬(s = 429 ∧ rc < 5)) :
    makeApiCall f rand rc =
      ((if respOk s then Except.ok s else .error (.api s)), []) := by
  rw [makeApiCall]
  simp only [h]
  rw [dif_neg hno]
  split <;> rename_i hok <;> simp [hok]

/-! ### Delay-list bookkeeping -/

theorem range_succ_map {α : Type} (g : Nat → α) (k : Nat) :
    (List.range (k + 1)).map g = g 0 :: (List.range k).map (fun i => g (i + 1)) := by
  rw [List.range_succ_eq_map, List.map_cons, List.map_map]
  rfl

theorem geo_delays_succ (d k : Nat) :
    (List.range (k + 1)).map (fun i => d * 2 ^ i) =
      d :: (List.range k).map (fun i => d * 2 * 2 ^ i) := by
  rw [range_succ_map (fun i => d * 2 ^ i) k]
  have hfun : (fun i => d * 2 ^ (i + 1)) = fun i => d * 2 * 2 ^ i := by
    funext i; ring
  rw [hfun]
  norm_num

theorem api_delays_succ (rand : Nat → Nat) (rc k : Nat) :
    (List.range (k + 1)).map (fun i => 2 ^ (rc + i) * 1000 + rand (rc + i)) =
      (2 ^ rc * 1000 + rand rc) ::
        (List.range k).map (fun i => 2 ^ (rc + 1 + i) * 1000 + rand (rc + 1 + i)) := by
  rw [range_succ_map (fun i => 2 ^ (rc + i) * 1000 + rand (rc + i)) k]
  have hfun : (fun i => 2 ^ (rc + (i + 1)) * 1000 + rand (rc + (i + 1))) =
      fun i => 2 ^ (rc + 1 + i) * 1000 + rand (rc + 1 + i) := by
    funext i
    rw [show rc + (i + 1) = rc + 1 + i from by omega]
  rw [hfun]
  norm_num

/-! ### Behaviour of whole runs -/

/-- A retried prefix: every attempt before `k` hits either a 429 or a
network error, then attempt `k` succeeds. -/
theorem fetchWithRetryGo_retry_prefix (f : Nat → Outcome) (s : Nat)
    (hs : respOk s = true) :
    ∀ k t a d,
      (∀ i, i < k → f (a + i) = .resp 429 ∨ ∃ m, f (a + i) = .netErr m) →
      f (a + k) = .resp s →
      fetchWithRetryGo f (k + (t + 1)) a d =
        (.response s, (List.range k).map (fun i => d * 2 ^ i)) := by
  intro k
  induction k with
  | zero =>
    intro t a d _ hk
    simp only [Nat.add_zero] at hk
    simp only [Nat.zero_add]
    exact fetchGo_resp_done f t a d s hk hs
  | succ k ih =>
    intro t a d hretry hk
    have hretry' : ∀ i, i < k →
        f (a + 1 + i) = .resp 429 ∨ ∃ m, f (a + 1 + i) = .netErr m := by
      intro i hi
      have h := hretry (i + 1) (by omega)
      rwa [show a + (i + 1) = a + 1 + i from by omega] at h
    have hk' : f (a + 1 + k) = .resp s := by
      have h := hk
      rwa [show a + (k + 1) = a + 1 + k from by omega] at h
    have hrec := ih t (a + 1) (d * 2) hretry' hk'
    rw [show k + 1 + (t + 1) = (k + (t + 1)) + 1 from by omega]
    rcases hretry 0 (Nat.succ_pos k) with h0 | ⟨m, h0⟩
    · simp only [Nat.add_zero] at h0
      rw [fetchGo_429_step f (k + (t + 1)) a d h0, hrec, geo_delays_succ]
    · simp only [Nat.add_zero] at h0
      rw [fetchGo_net_step f (k + (t + 1)) a d m h0 (by omega), hrec,
        geo_delays_succ]

theorem fetchWithRetryGo_429_exhaust (f : Nat → Outcome)
    (h429 : ∀ i, f i = .resp 429) :
    ∀ r a d, fetchWithRetryGo f r a d =
      (.null, (List.range r).map (fun i => d * 2 ^ i)) := by
  intro r
  induction r with
  | zero => intro a d; simp [fetchWithRetryGo]
  | succ r ih =>
    intro a d
    rw [fetchGo_429_step f r a d (h429 a), ih (a + 1) (d * 2), geo_delays_succ]

theorem fetchWithRetryGo_net_exhaust (f : Nat → Outcome) (msg : Nat → Str)
    (hnet : ∀ i, f i = .netErr (msg i)) :
    ∀ m a d, fetchWithRetryGo f (m + 1) a d =
      (.thrown (msg (a + m)), (List.range m).map (fun i => d * 2 ^ i)) := by
  intro m
  induction m with
  | zero =>
    intro a d
    simpa using fetchGo_net_last f a d (msg a) (hnet a)
  | succ m ih =>
    intro a d
    rw [fetchGo_net_step f (m + 1) a d (msg a) (hnet a) (Nat.succ_ne_zero m),
      ih (a + 1) (d * 2), geo_delays_succ,
      show a + 1 + m = a + (m + 1) from by omega]

theorem makeApiCall_429_prefix (f : Nat → Outcome) (rand : Nat → Nat)
    (s : Nat) (h429ne : s ≠ 429) :
    ∀ k rc, rc + k ≤ 5 → (∀ i, i < k → f (rc + i) = .resp 429) →
      f (rc + k) = .resp s →
      makeApiCall f rand rc =
        ((if respOk s then Except.ok s else .error (.api s)),
         (List.range k).map (fun i => 2 ^ (rc + i) * 1000 + rand (rc + i))) := by
  intro k
  induction k with
  | zero =>
    intro rc _ _ hk
    simp only [Nat.add_zero] at hk
    rw [makeApiCall_resp_done f rand rc s hk (by rintro ⟨rfl, -⟩; exact h429ne rfl)]
    simp
  | succ k ih =>
    intro rc hle h429 hk
    have h0 : f rc = .resp 429 := by simpa using h429 0 (Nat.succ_pos k)
    have h429' : ∀ i, i < k → f (rc + 1 + i) = .resp 429 := by
      intro i hi
      have h := h429 (i + 1) (by omega)
      rwa [show rc + (i + 1) = rc + 1 + i from by omega] at h
    have hk' : f (rc + 1 + k) = .resp s := by
      have h := hk
      rwa [show rc + (k + 1) = rc + 1 + k from by omega] at h
    rw [makeApiCall_429_step f rand rc h0 (by omega),
      ih (rc + 1) (by omega) h429' hk', api_delays_succ]

theorem makeApiCall_429_exhaust (f : Nat → Outcome) (rand : Nat → Nat)
    (h429 : ∀ i, f i = .resp 429) :
    makeApiCall f rand =
      (.error (.api 429), (List.range 5).map (fun i => 2 ^ i * 1000 + rand i)) := by
  have key : ∀ k rc, rc + k = 5 →
      makeApiCall f rand rc =
        (.error (.api 429),
         (List.range k).map (fun i => 2 ^ (rc + i) * 1000 + rand (rc + i))) := by
    intro k
    induction k with
    | zero =>
      intro rc h5
      rw [makeApiCall_resp_done f rand rc 429 (h429 rc) (by rintro ⟨-, hlt⟩; omega)]
      simp [show respOk 429 = false from rfl]
    | succ k ih =>
      intro rc h5
      rw [makeApiCall_429_step f rand rc (h429 rc) (by omega),
        ih (rc + 1) (by omega), api_delays_succ]
  have h := key 5 0 rfl
  simpa using h

/-- C3 (amended): `fetchWithRetry` retries on HTTP 429 and on network
exceptions with the deterministic delay `1000·2^attempt` ms (no jitter),
returns any other non-success response immediately without retrying,
returns `null` after `maxRetries` consecutive 429s, and rethrows a network
error on the last attempt; `makeApiCall` retries only on HTTP 429, waiting
`2^attempt·1000` ms plus random jitter, up to 6 total attempts (surfacing
the API error after the fifth retry), and propagates a network-level
exception or any other non-success response immediately without
retrying. -/
theorem retry_wrappers_spec :
    (∀ (f : Nat → Outcome) (s m k : Nat), respOk s = true → k < m →
       (∀ i, i < k → f i = .resp 429 ∨ ∃ msg, f i = .netErr msg) →
       f k = .resp s →
       fetchWithRetry f m =
         (.response s, (List.range k).map (fun i => 1000 * 2 ^ i))) ∧
    (∀ (f : Nat → Outcome) (s m : Nat), 1 ≤ m → respOk s = false → s ≠ 429 →
       f 0 = .resp s → fetchWithRetry f m = (.response s, [])) ∧
    (∀ (f : Nat → Outcome) (m : Nat), (∀ i, f i = .resp 429) →
       fetchWithRetry f m =
         (.null, (List.range m).map (fun i => 1000 * 2 ^ i))) ∧
    (∀ (f : Nat → Outcome) (msg : Nat → Str) (m : Nat),
       (∀ i, f i = .netErr (msg i)) →
       fetchWithRetry f (m + 1) =
         (.thrown (msg m), (List.range m).map (fun i => 1000 * 2 ^ i))) ∧
    (∀ (f : Nat → Outcome) (rand : Nat → Nat) (msg : Str),
       f 0 = .netErr msg → makeApiCall f rand = (.error (.network msg), [])) ∧
    (∀ (f : Nat → Outcome) (rand : Nat → Nat) (s k : Nat),
       respOk s = true → k ≤ 5 → (∀ i, i < k → f i = .resp 429) →
       f k = .resp s →
       makeApiCall f rand =
         (.ok s, (List.range k).map (fun i => 2 ^ i * 1000 + rand i))) ∧
    (∀ (f : Nat → Outcome) (rand : Nat → Nat) (s : Nat),
       respOk s = false → s ≠ 429 → f 0 = .resp s →
       makeApiCall f rand = (.error (.api s), [])) ∧
    (∀ (f : Nat → Outcome) (rand : Nat → Nat), (∀ i, f i = .resp 429) →
       makeApiCall f rand =
         (.error (.api 429), (List.range 5).map (fun i => 2 ^ i * 1000 + rand i))) := by
  refine ⟨?_, ?_, ?_, ?_, ?_, ?_, ?_, ?_⟩
  · intro f s m k hs hk hretry hsucc
    obtain ⟨t, rfl⟩ := Nat.exists_eq_add_of_lt hk
    have := fetchWithRetryGo_retry_prefix f s hs k t 0 1000
      (fun i hi => by simpa using hretry i hi) (by simpa using hsucc)
    simpa [fetchWithRetry] using this
  · intro f s m hm hs h429 h0
    obtain ⟨m', rfl⟩ := Nat.exists_eq_add_of_le hm
    rw [show 1 + m' = m' + 1 from by omega]
    exact fetchGo_other_done f m' 0 1000 s h0 hs h429
  · intro f m h429
    simpa [fetchWithRetry] using fetchWithRetryGo_429_exhaust f h429 m 0 1000
  · intro f msg m hnet
    simpa [fetchWithRetry] using fetchWithRetryGo_net_exhaust f msg hnet m 0 1000
  · intro f rand msg h0
    exact makeApiCall_net f rand 0 msg h0
  · intro f rand s k hs hk h429 hsucc
    have hne : s ≠ 429 := by rintro rfl; simp [respOk] at hs
    have := makeApiCall_429_prefix f rand s hne k 0 (by omega)
      (fun i hi => by simpa using h429 i hi) (by simpa using hsucc)
    simpa [hs] using this
  · intro f rand s hs h429 h0
    have := makeApiCall_429_prefix f rand s h429 0 0 (by omega)
      (fun i hi => by omega) (by simpa using h0)
    simpa [hs] using this
  · intro f rand h429
    exact makeApiCall_429_exhaust f rand h429

/-- Witness for C3: a concrete 429-429-200 sequence, a concrete immediate
400, concrete always-429 and always-network-error runs. -/
theorem retry_wrappers_spec_witness :
    fetchWithRetry (fun i => if i < 2 then .resp 429 else .resp 200) =
      (.response 200, [1000, 2000]) ∧
    fetchWithRetry (fun _ => .resp 400) = (.response 400, []) ∧
    fetchWithRetry (fun _ => .resp 429) = (.null, [1000, 2000, 4000]) ∧
    fetchWithRetry (fun _ => .netErr (str "reset")) =
      (.thrown (str "reset"), [1000, 2000]) ∧
    makeApiCall (fun _ => .netErr (str "boom")) (fun _ => 7) =
      (.error (.network (str "boom")), []) ∧
    makeApiCall (fun i => if i < 2 then .resp 429 else .resp 200) (fun _ => 7) =
      (.ok 200, [1007, 2007]) ∧
    makeApiCall (fun _ => .resp 400) (fun _ => 7) = (.error (.api 400), []) ∧
    makeApiCall (fun _ => .resp 429) (fun _ => 7) =
      (.error (.api 429), [1007, 2007, 4007, 8007, 16007]) := by
  refine ⟨?_, ?_, ?_, ?_, ?_, ?_, ?_, ?_⟩
  · have h := retry_wrappers_spec.1 (fun i => if i < 2 then .resp 429 else .resp 200)
      200 3 2 (by decide) (by decide)
      (fun i hi => Or.inl (by interval_cases i <;> rfl)) (by norm_num)
    rw [show (List.range 2).map (fun i => 1000 * 2 ^ i) = [1000, 2000]
      from by decide] at h
    exact h
  · exact retry_wrappers_spec.2.1 (fun _ => .resp 400) 400 3 (by decide)
      (by decide) (by decide) rfl
  · have h := retry_wrappers_spec.2.2.1 (fun _ => .resp 429) 3 (fun _ => rfl)
    rw [show (List.range 3).map (fun i => 1000 * 2 ^ i) = [1000, 2000, 4000]
      from by decide] at h
    exact h
  · have h := retry_wrappers_spec.2.2.2.1 (fun _ => .netErr (str "reset"))
      (fun _ => str "reset") 2 (fun _ => rfl)
    rw [show (List.range 2).map (fun i => 1000 * 2 ^ i) = [1000, 2000]
      from by decide] at h
    exact h
  · exact retry_wrappers_spec.2.2.2.2.1 (fun _ => .netErr (str "boom"))
      (fun _ => 7) (str "boom") rfl
  · have h := retry_wrappers_spec.2.2.2.2.2.1
      (fun i => if i < 2 then .resp 429 else .resp 200) (fun _ => 7) 200 2
      (by decide) (by decide) (fun i hi => by interval_cases i <;> rfl) (by norm_num)
    rw [show (List.range 2).map (fun i => 2 ^ i * 1000 + (fun _ : Nat => 7) i) =
      [1007, 2007] from by decide] at h
    exact h
  · exact retry_wrappers_spec.2.2.2.2.2.2.1 (fun _ => .resp 400) (fun _ => 7) 400
      (by decide) (by decide) rfl
  · have h := retry_wrappers_spec.2.2.2.2.2.2.2 (fun _ => .resp 429) (fun _ => 7)
      (fun _ => rfl)
    rw [show (List.range 5).map (fun i => 2 ^ i * 1000 + (fun _ : Nat => 7) i) =
      [1007, 2007, 4007, 8007, 16007] from by decide] at h
    exact h

/-! ## JavaScript value helpers for the report formatter

The generated record handled by the background worker is whatever JSON the
model returned, so property access and coercions follow JavaScript
semantics: `x.f` throws on `null`, `(x.f || '')` blanks falsy values,
template interpolation coerces any value to a string, and `.padEnd` throws
on non-strings. -/

/-- Property lookup on an object literal produced by `JSON.parse`
(duplicate keys: the last one wins). -/
def jsLookup (fields : List (Str × Json)) (name : Str) : Option Json :=
  (fields.reverse.find? (fun kv => kv.1 = name)).map (·.2)

/-- `v.name`: member access throws a `TypeError` on `null`; primitives and
arrays have none of the accessed named properties. -/
def jsProp : Json → Str → Except Str (Option Json)
  | .null, _ => .error (str "TypeError: Cannot read properties of null")
  | .obj fields, name => .ok (jsLookup fields name)
  | _, _ => .ok none

/-- `v.name` where `v` itself may be `undefined`. -/
def jsPropU : Option Json → Str → Except Str (Option Json)
  | none, _ => .error (str "TypeError: Cannot read properties of undefined")
  | some v, name => jsProp v name

/-- `v[i]`: index access, throwing on `null`/`undefined`. -/
def jsIndex : Option Json → Nat → Except Str (Option Json)
  | none, _ => .error (str "TypeError: Cannot read properties of undefined")
  | some .null, _ => .error (str "TypeError: Cannot read properties of null")
  | some (.arr l), i => .ok (l.get? i)
  | some (.obj fields), i => .ok (jsLookup fields (natToStr i))
  | some _, _ => .ok none

/-- Is this numeric lexeme the number zero (sign, decimal point and
exponent notwithstanding)? -/
def numLexIsZero (lex : Str) : Bool :=
  (lex.takeWhile (fun c => c ≠ 'e' ∧ c ≠ 'E')).all
    (fun c => c = '0' ∨ c = '-' ∨ c = '.')

/-- JavaScript truthiness of a possibly-undefined JSON value. -/
def jsFalsy : Option Json → Bool
  | none => true
  | some .null => true
  | some (.bool b) => !b
  | some (.num lex) => numLexIsZero lex
  | some (.str s) => s = []
  | some (.arr _) => false
  | some (.obj _) => false

mutual

/-- `String(v)` for a JSON value (numbers keep their lexeme). -/
def jsToString : Json → Str
  | .null => str "null"
  | .bool true => str "true"
  | .bool false => str "false"
  | .num lex => lex
  | .str s => s
  | .arr l => jsArrJoin l
  | .obj _ => str "[object Object]"

/-- `Array.prototype.toString`: elements joined by commas, `null` blank. -/
def jsArrJoin : List Json → Str
  | [] => []
  | [x] => jsElemStr x
  | x :: xs => jsElemStr x ++ [','] ++ jsArrJoin xs

def jsElemStr : Json → Str
  | .null => []
  | .bool true => str "true"
  | .bool false => str "false"
  | .num lex => lex
  | .str s => s
  | .arr l => jsArrJoin l
  | .obj _ => str "[object Object]"

end

/-- `String(v)` where `v` may be `undefined`. -/
def jsToStringU : Option Json → Str
  | none => str "undefined"
  | some v => jsToString v

/-- `${v || ''}` inside a template literal. -/
def tplOrEmpty (v : Option Json) : Str :=
  if jsFalsy v then [] else jsToStringU v

/-- `(value || '').padEnd(12, ' ')`: blanks falsy values, pads strings,
and throws a `TypeError` for any other (truthy, non-string) value. -/
def padValCol (v : Option Json) : Except Str Str :=
  if jsFalsy v then .ok (padEnd [] 12)
  else match v with
    | some (.str s) => .ok (padEnd s 12)
    | _ => .error (str "TypeError: value.padEnd is not a function")

/-- `${reportData.interpretation || 'Not provided'}`. -/
def interpStr (v : Option Json) : Str :=
  if jsFalsy v then str "Not provided" else jsToStringU v

/-! ## `getDobFromScenario` (generate-report-process-background.js, 28–51)

```js
function getDobFromScenario(scenario) {
    const ageRegex = /\b(\d{1,3})\s*(year-old|year old|yo|y\/o)\b/i;
    const match = scenario.match(ageRegex);
    let age;
    if (match && match[1]) { age = parseInt(match[1], 10); }
    else { age = Math.floor(Math.random() * (90 - 18 + 1)) + 18; }
    const currentYear = new Date().getFullYear();
    const birthYear = currentYear - age;
    const birthMonth = Math.floor(Math.random() * 12) + 1;
    const birthDay = Math.floor(Math.random() * 28) + 1;
    const format = (num) => num.toString().padStart(2, '0');
    return `${format(birthDay)}/${format(birthMonth)}/${birthYear}`;
}
```
The three `Math.random()` draws are an explicit oracle, and
`new Date().getFullYear()` an explicit `currentYear`. -/

/-- The results of the three floored random draws of
`getDobFromScenario`. -/
structure DobRand where
  ageDraw : Fin 73
  monthDraw : Fin 12
  dayDraw : Fin 28

def lowerCh (c : Char) : Char :=
  if 'A' ≤ c ∧ c ≤ 'Z' then Char.ofNat (c.toNat + 32) else c

/-- Case-insensitive literal match; returns the remaining input. -/
def matchLitCI : Str → Str → Option Str
  | [], rest => some rest
  | _ :: _, [] => none
  | p :: ps, c :: cs => if lowerCh c = p then matchLitCI ps cs else none

/-- The `\b` after the unit word: end of input or a non-word character. -/
def boundaryAfter : Str → Bool
  | [] => true
  | c :: _ => !isWordChar c

/-- One alternative of `(year-old|year old|yo|y\/o)` followed by `\b`. -/
def altOne (pat rest : Str) : Bool :=
  match matchLitCI pat rest with
  | some t => boundaryAfter t
  | none => false

/-- The alternation, tried left to right with backtracking on a failed
trailing `\b`. -/
def altOk (rest : Str) : Bool :=
  altOne (str "year-old") rest || altOne (str "year old") rest ||
  altOne (str "yo") rest || altOne (str "y/o") rest

def digitsToNat (ds : Str) : Nat :=
  ds.foldl (fun acc c => acc * 10 + (c.toNat - '0'.toNat)) 0

/-- Try `\d{len}\s*(…)\b` at the current position. -/
def tryLen (rest : Str) (len : Nat) : Option Nat :=
  let ds := rest.take len
  if ds.length = len ∧ ds.all isDigitJs then
    if altOk ((rest.drop len).dropWhile isSpaceJs) then some (digitsToNat ds)
    else none
  else none

/-- Greedy `\d{1,3}` with backtracking: three digits, then two, then one. -/
def tryMatchAt (rest : Str) : Option Nat :=
  (tryLen rest 3).orElse fun _ => (tryLen rest 2).orElse fun _ => tryLen rest 1

/-- The `\b` before the digits: start of string or a preceding non-word
character. -/
def boundaryBefore : Option Char → Bool
  | none => true
  | some p => !isWordChar p

/-- Leftmost match of the age regex: scan positions left to right. -/
def findAgeGo : Option Char → Str → Option Nat
  | _, [] => none
  | prev, c :: cs =>
    if boundaryBefore prev ∧ isDigitJs c then
      match tryMatchAt (c :: cs) with
      | some age => some age
      | none => findAgeGo (some c) cs
    else findAgeGo (some c) cs

def findAge (s : Str) : Option Nat := findAgeGo none s

def getDobFromScenario (scenario : Str) (dr : DobRand) (currentYear : Int) : Str :=
  let age : Nat :=
    match findAge scenario with
    | some a => a
    | none => dr.ageDraw.val + 18
  let birthYear : Int := currentYear - age
  let birthMonth : Nat := dr.monthDraw.val + 1
  let birthDay : Nat := dr.dayDraw.val + 1
  pad2 birthDay ++ ['/'] ++ pad2 birthMonth ++ ['/'] ++ intToStr birthYear

/-- `getDobFromScenario(scenario)` as called by the handler: `scenario`
comes out of the stored job record and `.match` throws unless it is a
string. -/
def getDobJs (scenario : Option Json) (dr : DobRand) (year : Int) :
    Except Str Str :=
  match scenario with
  | some (.str s) => .ok (getDobFromScenario s dr year)
  | _ => .error (str "TypeError: scenario.match is not a function")

/-! ## The report formatter (generate-report-process-background.js, 20–25
and 134–189) -/

/-- ```js
function formatLine(label, value, unit = '', reference = '') {
    const labelCol = label.padEnd(18, ' ');
    const valueCol = (value || '').padEnd(12, ' ');
    const unitCol = unit.padEnd(11, ' ');
    return `${labelCol}${valueCol}${unitCol}${reference}\n`;
}
``` -/
def formatLine (label : Str) (value : Option Json) (unit : Str)
    (reference : Str) : Except Str Str := do
  let valueCol ← padValCol value
  pure (padEnd label 18 ++ valueCol ++ padEnd unit 11 ++ reference ++ ['\n'])

/-- `formatLine(label, reportData[field], unit, reference)`. -/
def fmtField (rec : Json) (label field unit reference : Str) :
    Except Str Str := do
  let v ← jsProp rec field
  formatLine label v unit reference

def sepLine : Str := List.replicate 56 '─' ++ ['\n']

def isVenous (gasType : Option Json) : Bool :=
  match gasType with
  | some (.str s) => s = str "Venous"
  | _ => false

/-- Lines 136–145 of the header template: everything before the
`Blood Type` line. -/
def headerPre (patientId lastName firstName temperature fio2 : Option Json)
    (dob : Str) : Str :=
  str "                   Blood Gas\n" ++
  str "                 Emergency Department\n" ++
  sepLine ++
  str "Patient ID:       " ++ tplOrEmpty patientId ++ ['\n'] ++
  str "Last Name         " ++ tplOrEmpty lastName ++ ['\n'] ++
  str "First Name        " ++ tplOrEmpty firstName ++ ['\n'] ++
  str "Date of Birth     " ++ dob ++ ['\n'] ++
  str "Temperature       " ++ tplOrEmpty temperature ++ str " ° C\n" ++
  str "FIO₂              " ++ tplOrEmpty fio2 ++ ['\n'] ++
  str "Sample type       Blood\n"

/-- Lines 136–147: the headed patient block, ending in a separator. -/
def reportHeader (rec : Json) (gasType : Option Json) (dob : Str) :
    Except Str Str := do
  let patientId ← jsProp rec (str "patientId")
  let lastName ← jsProp rec (str "lastName")
  let firstName ← jsProp rec (str "firstName")
  let temperature ← jsProp rec (str "temperature")
  let fio2 ← jsProp rec (str "fio2")
  pure (headerPre patientId lastName firstName temperature fio2 dob ++
        (str "Blood Type        " ++ jsToStringU gasType ++ ['\n']) ++
        sepLine)

/-- Lines 148–156: pH/PCO₂/PO₂ with sample-type-dependent reference
ranges (`gasType === 'Venous'`). -/
def gasBlock (rec : Json) (gasType : Option Json) : Except Str Str := do
  if isVenous gasType then
    let l1 ← fmtField rec (str "pH") (str "ph") [] (str "(7.310 - 7.410)")
    let l2 ← fmtField rec (str "PCO₂") (str "pco2") (str "kPa") (str "(5.30 - 6.70)")
    let l3 ← fmtField rec (str "PO₂") (str "po2") (str "kPa") (str "(4.00 - 6.70)")
    pure (l1 ++ l2 ++ l3)
  else
    let l1 ← fmtField rec (str "pH") (str "ph") [] (str "(7.350 - 7.450)")
    let l2 ← fmtField rec (str "PCO₂") (str "pco2") (str "kPa") (str "(4.67 - 6.00)")
    let l3 ← fmtField rec (str "PO₂") (str "po2") (str "kPa") (str "(10.67 - 13.33)")
    pure (l1 ++ l2 ++ l3)

/-- Lines 157–183: electrolytes through ctO₂, then the top of the
interpretation box. -/
def midBlock (rec : Json) : Except Str Str := do
  let na ← fmtField rec (str "Na⁺") (str "na") (str "mmol/L") (str "(135.0 - 148.0)")
  let k ← fmtField rec (str "K⁺") (str "k") (str "mmol/L") (str "(3.50 - 4.50)")
  let cl ← fmtField rec (str "Cl⁻") (str "cl") (str "mmol/L") (str "(98.0 - 107.0)")
  let ca ← fmtField rec (str "Ca²⁺") (str "ca") (str "mmol/L") (str "(1.120 - 1.320)")
  let hct ← fmtField rec (str "HCT") (str "hct") (str "%") (str "(35.0 – 50.0)")
  let glucose ← fmtField rec (str "Glucose") (str "glucose") (str "mmol/L") (str "(3.3 – 6.1)")
  let lactate ← fmtField rec (str "Lactate") (str "lactate") (str "mmol/L") (str "(0.4 – 2.2)")
  let thb ← fmtField rec (str "tHb") (str "thb") (str "g/dL") (str "(11.5 – 17.4)")
  let o2hb ← fmtField rec (str "O₂ Hb") (str "o2hb") (str "%") (str "(95.0 – 99.0)")
  let cohb ← fmtField rec (str "COHb") (str "cohb") (str "%") (str "(0.5 – 2.5)")
  let hhb ← fmtField rec (str "HHb") (str "hhb") (str "%") (str "(1.0 – 5.0)")
  let methb ← fmtField rec (str "MetHb") (str "methb") (str "%") (str "(0.4 – 1.5)")
  let be ← fmtField rec (str "BE") (str "be") (str "mmol/L") (str "(-2.3 – 2.3)")
  let chco3 ← fmtField rec (str "cHCO₃") (str "chco3") (str "mmol/L") []
  let aado2 ← fmtField rec (str "AaDO₂") (str "aado2") (str "kPa") []
  let so2 ← fmtField rec (str "SO₂") (str "so2") (str "%") (str "(75.0 – 99.0)")
  let chco3st ← fmtField rec (str "cHCO₃ st") (str "chco3st") (str "mmol/L") (str "(22.4 – 25.8)")
  let p50 ← fmtField rec (str "P50") (str "p50") (str "kPa") []
  let cto2 ← fmtField rec (str "ctO₂") (str "cto2") (str "Vol %") []
  pure (sepLine ++ na ++ k ++ cl ++ ca ++ sepLine ++ hct ++ sepLine ++
        glucose ++ lactate ++ sepLine ++ thb ++ o2hb ++ cohb ++ hhb ++ methb ++
        sepLine ++ be ++ chco3 ++ aado2 ++ so2 ++ chco3st ++ p50 ++ cto2 ++
        str "\n\n" ++
        ('┌' :: List.replicate 56 '─' ++ str "┐\n") ++
        (str "│ Interpretation" ++ List.replicate 41 ' ' ++ str "│\n") ++
        ('├' :: List.replicate 56 '─' ++ str "┤\n"))

/-- Lines 184–189: the word-wrapped scenario and interpretation, boxed. -/
def boxBlock (rec : Json) (scenario : Option Json) : Except Str Str := do
  let wrappedScenario := wordWrap (str "Scenario: " ++ jsToStringU scenario) 54
  let scenPart := (wrappedScenario.map
    (fun line => str "│ " ++ padEnd line 54 ++ str " │\n")).flatten
  let interp ← jsProp rec (str "interpretation")
  let wrappedInterp :=
    wordWrap (str "Interpretation: " ++ interpStr interp) 54
  let interpPart := (wrappedInterp.map
    (fun line => str "│ " ++ padEnd line 54 ++ str " │\n")).flatten
  pure (scenPart ++ (str "│ " ++ padEnd [] 54 ++ str " │\n") ++ interpPart ++
        ('└' :: List.replicate 56 '─' ++ str "┘\n"))

/-- Lines 136–189: the full report for a given date-of-birth string. -/
def formatReport (rec : Json) (gasType scenario : Option Json) (dob : Str) :
    Except Str Str := do
  let h ← reportHeader rec gasType dob
  let g ← gasBlock rec gasType
  let m ← midBlock rec
  let b ← boxBlock rec scenario
  pure (h ++ g ++ m ++ b)

/-- Lines 134–189: compute the date of birth (consuming the random draws
and the clock year), then format. -/
def renderReport (rec : Json) (gasType scenario : Option Json)
    (dr : DobRand) (year : Int) : Except Str Str := do
  let dob ← getDobJs scenario dr year
  formatReport rec gasType scenario dob

/-! ## Formatter lemmas -/

theorem SeqIn.append_right {pat x : Str} (y : Str) (h : SeqIn pat x) :
    SeqIn pat (x ++ y) := by
  obtain ⟨a, b, rfl⟩ := h
  exact ⟨a, b ++ y, by simp⟩

theorem SeqIn.append_left {pat x : Str} (y : Str) (h : SeqIn pat x) :
    SeqIn pat (y ++ x) := by
  obtain ⟨a, b, rfl⟩ := h
  exact ⟨y ++ a, b, by simp⟩

theorem SeqIn.self (pat : Str) : SeqIn pat pat := ⟨[], [], by simp⟩

/-- A generated record whose present fields are all strings — the shape of
the Generated Record of the data model (field name → string value). -/
def stringyFields (fields : List (Str × Json)) : Prop :=
  ∀ kv ∈ fields, ∃ s, kv.2 = Json.str s

theorem jsLookup_stringy {fields : List (Str × Json)}
    (h : stringyFields fields) (name : Str) :
    jsLookup fields name = none ∨ ∃ s, jsLookup fields name = some (.str s) := by
  rcases hf : jsLookup fields name with _ | v
  · exact Or.inl rfl
  · right
    unfold jsLookup at hf
    cases hg : fields.reverse.find? (fun kv => kv.1 = name) with
    | none => rw [hg] at hf; simp at hf
    | some kv =>
      rw [hg] at hf
      simp only [Option.map_some'] at hf
      have hmem : kv ∈ fields := List.mem_reverse.mp (List.mem_of_find?_eq_some hg)
      obtain ⟨s, hs⟩ := h kv hmem
      exact ⟨s, by rw [← hf, hs]⟩

theorem except_bind_ok {ε α β : Type} (a : α) (f : α → Except ε β) :
    (Except.ok a : Except ε α) >>= f = f a := rfl

theorem except_bind_err {ε α β : Type} (e : ε) (f : α → Except ε β) :
    (Except.error e : Except ε α) >>= f = .error e := rfl

theorem except_map_ok {ε α β : Type} (g : α → β) (a : α) :
    (g <$> (Except.ok a : Except ε α)) = .ok (g a) := rfl

theorem except_map_err {ε α β : Type} (g : α → β) (e : ε) :
    (g <$> (Except.error e : Except ε α)) = .error e := rfl

theorem padValCol_stringy {v : Option Json}
    (h : v = none ∨ ∃ s, v = some (.str s)) :
    ∃ out, padValCol v = .ok out := by
  rcases h with rfl | ⟨s, rfl⟩
  · exact ⟨_, rfl⟩
  · unfold padValCol
    cases hf : jsFalsy (some (.str s)) with
    | false => exact ⟨padEnd s 12, by simp [hf]⟩
    | true => exact ⟨padEnd [] 12, by simp [hf]⟩

/-- The string a successful `formatLine` call returns. -/
def lineVal (label vc unit reference : Str) : Str :=
  padEnd label 18 ++ vc ++ padEnd unit 11 ++ reference ++ ['\n']

theorem fmtField_stringy {fields : List (Str × Json)}
    (h : stringyFields fields) (label field unit reference : Str) :
    ∃ vc, fmtField (.obj fields) label field unit reference =
      .ok (lineVal label vc unit reference) := by
  obtain ⟨vc, hvc⟩ := padValCol_stringy (jsLookup_stringy h field)
  exact ⟨vc, by
    simp [fmtField, jsProp, formatLine, lineVal, hvc, except_bind_ok,
      except_map_ok]⟩

/-- The reference range occurs in the line `formatLine` builds. -/
theorem SeqIn_formatLine (label vc unit reference : Str) :
    SeqIn reference (lineVal label vc unit reference) :=
  ⟨padEnd label 18 ++ vc ++ padEnd unit 11, ['\n'],
   by simp [lineVal, List.append_assoc]⟩

theorem gasBlock_stringy {fields : List (Str × Json)} (h : stringyFields fields)
    (gasType : Option Json) :
    ∃ g, gasBlock (.obj fields) gasType = .ok g ∧
      (isVenous gasType = true → SeqIn (str "(7.310 - 7.410)") g ∧
        SeqIn (str "(5.30 - 6.70)") g ∧ SeqIn (str "(4.00 - 6.70)") g) ∧
      (isVenous gasType = false → SeqIn (str "(7.350 - 7.450)") g ∧
        SeqIn (str "(4.67 - 6.00)") g ∧ SeqIn (str "(10.67 - 13.33)") g) := by
  cases hv : isVenous gasType with
  | true =>
    obtain ⟨v1, h1⟩ := fmtField_stringy h (str "pH") (str "ph") [] (str "(7.310 - 7.410)")
    obtain ⟨v2, h2⟩ := fmtField_stringy h (str "PCO₂") (str "pco2") (str "kPa") (str "(5.30 - 6.70)")
    obtain ⟨v3, h3⟩ := fmtField_stringy h (str "PO₂") (str "po2") (str "kPa") (str "(4.00 - 6.70)")
    refine ⟨lineVal (str "pH") v1 [] (str "(7.310 - 7.410)") ++
            lineVal (str "PCO₂") v2 (str "kPa") (str "(5.30 - 6.70)") ++
            lineVal (str "PO₂") v3 (str "kPa") (str "(4.00 - 6.70)"),
            ?_, ?_, ?_⟩
    · unfold gasBlock
      rw [hv]
      simp only [if_true, h1, h2, h3, except_bind_ok]
      rfl
    · intro _
      exact ⟨(SeqIn_formatLine _ v1 _ _).append_right _ |>.append_right _,
             (SeqIn_formatLine _ v2 _ _).append_left _ |>.append_right _,
             (SeqIn_formatLine _ v3 _ _).append_left _⟩
    · intro hc
      simp at hc
  | false =>
    obtain ⟨v1, h1⟩ := fmtField_stringy h (str "pH") (str "ph") [] (str "(7.350 - 7.450)")
    obtain ⟨v2, h2⟩ := fmtField_stringy h (str "PCO₂") (str "pco2") (str "kPa") (str "(4.67 - 6.00)")
    obtain ⟨v3, h3⟩ := fmtField_stringy h (str "PO₂") (str "po2") (str "kPa") (str "(10.67 - 13.33)")
    refine ⟨lineVal (str "pH") v1 [] (str "(7.350 - 7.450)") ++
            lineVal (str "PCO₂") v2 (str "kPa") (str "(4.67 - 6.00)") ++
            lineVal (str "PO₂") v3 (str "kPa") (str "(10.67 - 13.33)"),
            ?_, ?_, ?_⟩
    · unfold gasBlock
      rw [hv]
      simp only [Bool.false_eq_true, if_false, h1, h2, h3, except_bind_ok]
      rfl
    · intro hc
      simp at hc
    · intro _
      exact ⟨(SeqIn_formatLine _ v1 _ _).append_right _ |>.append_right _,
             (SeqIn_formatLine _ v2 _ _).append_left _ |>.append_right _,
             (SeqIn_formatLine _ v3 _ _).append_left _⟩

theorem midBlock_stringy {fields : List (Str × Json)} (h : stringyFields fields) :
    ∃ m, midBlock (.obj fields) = .ok m := by
  obtain ⟨vna, hna⟩ := fmtField_stringy h (str "Na⁺") (str "na") (str "mmol/L") (str "(135.0 - 148.0)")
  obtain ⟨vk, hk⟩ := fmtField_stringy h (str "K⁺") (str "k") (str "mmol/L") (str "(3.50 - 4.50)")
  obtain ⟨vcl, hcl⟩ := fmtField_stringy h (str "Cl⁻") (str "cl") (str "mmol/L") (str "(98.0 - 107.0)")
  obtain ⟨vca, hca⟩ := fmtField_stringy h (str "Ca²⁺") (str "ca") (str "mmol/L") (str "(1.120 - 1.320)")
  obtain ⟨vh, hhct⟩ := fmtField_stringy h (str "HCT") (str "hct") (str "%") (str "(35.0 – 50.0)")
  obtain ⟨vg, hglu⟩ := fmtField_stringy h (str "Glucose") (str "glucose") (str "mmol/L") (str "(3.3 – 6.1)")
  obtain ⟨vl, hlac⟩ := fmtField_stringy h (str "Lactate") (str "lactate") (str "mmol/L") (str "(0.4 – 2.2)")
  obtain ⟨vt, hthb⟩ := fmtField_stringy h (str "tHb") (str "thb") (str "g/dL") (str "(11.5 – 17.4)")
  obtain ⟨vo, ho2⟩ := fmtField_stringy h (str "O₂ Hb") (str "o2hb") (str "%") (str "(95.0 – 99.0)")
  obtain ⟨vco, hco⟩ := fmtField_stringy h (str "COHb") (str "cohb") (str "%") (str "(0.5 – 2.5)")
  obtain ⟨vhh, hhh⟩ := fmtField_stringy h (str "HHb") (str "hhb") (str "%") (str "(1.0 – 5.0)")
  obtain ⟨vme, hme⟩ := fmtField_stringy h (str "MetHb") (str "methb") (str "%") (str "(0.4 – 1.5)")
  obtain ⟨vbe, hbe⟩ := fmtField_stringy h (str "BE") (str "be") (str "mmol/L") (str "(-2.3 – 2.3)")
  obtain ⟨vch, hch⟩ := fmtField_stringy h (str "cHCO₃") (str "chco3") (str "mmol/L") []
  obtain ⟨vaa, haa⟩ := fmtField_stringy h (str "AaDO₂") (str "aado2") (str "kPa") []
  obtain ⟨vso, hso⟩ := fmtField_stringy h (str "SO₂") (str "so2") (str "%") (str "(75.0 – 99.0)")
  obtain ⟨vcs, hcst⟩ := fmtField_stringy h (str "cHCO₃ st") (str "chco3st") (str "mmol/L") (str "(22.4 – 25.8)")
  obtain ⟨vp, hp50⟩ := fmtField_stringy h (str "P50") (str "p50") (str "kPa") []
  obtain ⟨vct, hcto⟩ := fmtField_stringy h (str "ctO₂") (str "cto2") (str "Vol %") []
  refine ⟨sepLine ++ lineVal (str "Na⁺") vna (str "mmol/L") (str "(135.0 - 148.0)") ++
      lineVal (str "K⁺") vk (str "mmol/L") (str "(3.50 - 4.50)") ++
      lineVal (str "Cl⁻") vcl (str "mmol/L") (str "(98.0 - 107.0)") ++
      lineVal (str "Ca²⁺") vca (str "mmol/L") (str "(1.120 - 1.320)") ++
      sepLine ++ lineVal (str "HCT") vh (str "%") (str "(35.0 – 50.0)") ++
      sepLine ++ lineVal (str "Glucose") vg (str "mmol/L") (str "(3.3 – 6.1)") ++
      lineVal (str "Lactate") vl (str "mmol/L") (str "(0.4 – 2.2)") ++
      sepLine ++ lineVal (str "tHb") vt (str "g/dL") (str "(11.5 – 17.4)") ++
      lineVal (str "O₂ Hb") vo (str "%") (str "(95.0 – 99.0)") ++
      lineVal (str "COHb") vco (str "%") (str "(0.5 – 2.5)") ++
      lineVal (str "HHb") vhh (str "%") (str "(1.0 – 5.0)") ++
      lineVal (str "MetHb") vme (str "%") (str "(0.4 – 1.5)") ++
      sepLine ++ lineVal (str "BE") vbe (str "mmol/L") (str "(-2.3 – 2.3)") ++
      lineVal (str "cHCO₃") vch (str "mmol/L") [] ++
      lineVal (str "AaDO₂") vaa (str "kPa") [] ++
      lineVal (str "SO₂") vso (str "%") (str "(75.0 – 99.0)") ++
      lineVal (str "cHCO₃ st") vcs (str "mmol/L") (str "(22.4 – 25.8)") ++
      lineVal (str "P50") vp (str "kPa") [] ++
      lineVal (str "ctO₂") vct (str "Vol %") [] ++
      str "\n\n" ++
      ('┌' :: List.replicate 56 '─' ++ str "┐\n") ++
      (str "│ Interpretation" ++ List.replicate 41 ' ' ++ str "│\n") ++
      ('├' :: List.replicate 56 '─' ++ str "┤\n"), ?_⟩
  simp only [midBlock, hna, hk, hcl, hca, hhct, hglu, hlac, hthb,
    ho2, hco, hhh, hme, hbe, hch, haa, hso, hcst, hp50, hcto, except_bind_ok]
  rfl

theorem formatReport_eq_of_components {rec : Json} {gasType scenario : Option Json}
    {dob hh g m b : Str}
    (hH : reportHeader rec gasType dob = .ok hh)
    (hG : gasBlock rec gasType = .ok g)
    (hM : midBlock rec = .ok m)
    (hB : boxBlock rec scenario = .ok b) :
    formatReport rec gasType scenario dob = .ok (hh ++ g ++ m ++ b) := by
  simp [formatReport, hH, hG, hM, hB, except_bind_ok]

/-- The sample-type value as it reaches the formatter. -/
def venGas (venous : Bool) : Option Json :=
  some (.str (str (if venous then "Venous" else "Arterial")))

/-- A report line whose value column is blank. -/
def blankLine (label unit reference : Str) : Str :=
  lineVal label (padEnd [] 12) unit reference

/-- Every labelled line of the report, with a blank value column, in
source order: the three gas lines for the given sample type followed by
the nineteen fixed lines. -/
def blankLinePatterns (venous : Bool) : List Str :=
  (if venous then
    [blankLine (str "pH") [] (str "(7.310 - 7.410)"),
     blankLine (str "PCO₂") (str "kPa") (str "(5.30 - 6.70)"),
     blankLine (str "PO₂") (str "kPa") (str "(4.00 - 6.70)")]
   else
    [blankLine (str "pH") [] (str "(7.350 - 7.450)"),
     blankLine (str "PCO₂") (str "kPa") (str "(4.67 - 6.00)"),
     blankLine (str "PO₂") (str "kPa") (str "(10.67 - 13.33)")]) ++
  [blankLine (str "Na⁺") (str "mmol/L") (str "(135.0 - 148.0)"),
   blankLine (str "K⁺") (str "mmol/L") (str "(3.50 - 4.50)"),
   blankLine (str "Cl⁻") (str "mmol/L") (str "(98.0 - 107.0)"),
   blankLine (str "Ca²⁺") (str "mmol/L") (str "(1.120 - 1.320)"),
   blankLine (str "HCT") (str "%") (str "(35.0 – 50.0)"),
   blankLine (str "Glucose") (str "mmol/L") (str "(3.3 – 6.1)"),
   blankLine (str "Lactate") (str "mmol/L") (str "(0.4 – 2.2)"),
   blankLine (str "tHb") (str "g/dL") (str "(11.5 – 17.4)"),
   blankLine (str "O₂ Hb") (str "%") (str "(95.0 – 99.0)"),
   blankLine (str "COHb") (str "%") (str "(0.5 – 2.5)"),
   blankLine (str "HHb") (str "%") (str "(1.0 – 5.0)"),
   blankLine (str "MetHb") (str "%") (str "(0.4 – 1.5)"),
   blankLine (str "BE") (str "mmol/L") (str "(-2.3 – 2.3)"),
   blankLine (str "cHCO₃") (str "mmol/L") [],
   blankLine (str "AaDO₂") (str "kPa") [],
   blankLine (str "SO₂") (str "%") (str "(75.0 – 99.0)"),
   blankLine (str "cHCO₃ st") (str "mmol/L") (str "(22.4 – 25.8)"),
   blankLine (str "P50") (str "kPa") [],
   blankLine (str "ctO₂") (str "Vol %") []]

/-- The four blocks of the report for the all-fields-missing record. -/
def blankHeaderStr (venous : Bool) (dob : Str) : Str :=
  (reportHeader (.obj []) (venGas venous) dob).toOption.getD []

def blankGasStr (venous : Bool) : Str :=
  (gasBlock (.obj []) (venGas venous)).toOption.getD []

def blankMidStr : Str := (midBlock (.obj [])).toOption.getD []

def blankBoxStr (scen : Str) : Str :=
  (boxBlock (.obj []) (some (.str scen))).toOption.getD []

set_option maxRecDepth 4000 in
theorem formatReport_blank_split (venous : Bool) (scen dob : Str) :
    formatReport (.obj []) (venGas venous) (some (.str scen)) dob =
      .ok (blankHeaderStr venous dob ++ blankGasStr venous ++ blankMidStr ++
           blankBoxStr scen) := by
  cases venous <;> rfl

set_option maxRecDepth 8000 in
set_option maxHeartbeats 2000000 in
theorem blankLinePatterns_in_blocks (venous : Bool) :
    ∀ p ∈ blankLinePatterns venous,
      (containsSeq p (blankGasStr venous) || containsSeq p blankMidStr) = true := by
  cases venous
  · decide
  · decide

/-- C6: `formatReport` is total on records whose present fields are
strings (every absent field renders as a blank value column instead of
throwing), and on the record with all fields missing the report still
contains, for either sample type, every labelled line — label, unit and
reference range intact around a blank value column. -/
theorem formatReport_total_blank :
    (∀ (fields : List (Str × Json)) (gasType scenario : Option Json) (dob : Str),
       stringyFields fields →
       ∃ r, formatReport (.obj fields) gasType scenario dob = .ok r) ∧
    (∀ (venous : Bool) (scen dob : Str),
       ∃ r, formatReport (.obj []) (venGas venous) (some (.str scen)) dob = .ok r ∧
         ∀ pat ∈ blankLinePatterns venous, SeqIn pat r) := by
  constructor
  · intro fields gasType scenario dob h
    obtain ⟨g, hg, -, -⟩ := gasBlock_stringy h gasType
    obtain ⟨m, hm⟩ := midBlock_stringy h
    exact ⟨_, formatReport_eq_of_components rfl hg hm rfl⟩
  · intro venous scen dob
    refine ⟨_, formatReport_blank_split venous scen dob, ?_⟩
    intro pat hp
    have hor : containsSeq pat (blankGasStr venous) = true ∨
        containsSeq pat blankMidStr = true := by
      have hb := blankLinePatterns_in_blocks venous pat hp
      rcases hg : containsSeq pat (blankGasStr venous) with _ | _
      · right
        simpa [hg] using hb
      · exact Or.inl rfl
    rcases hor with hb | hb
    · exact (((containsSeq_sound hb).append_left _).append_right _).append_right _
    · exact ((containsSeq_sound hb).append_left _).append_right _

set_option maxRecDepth 4000 in
/-- Witness for C6: a one-field record and the all-blank venous report. -/
theorem formatReport_total_blank_witness :
    (∃ r, formatReport (.obj [(str "ph", .str (str "7.40"))])
        (some (.str (str "Arterial"))) (some (.str (str "a test")))
        (str "01/02/1984") = .ok r) ∧
    (∃ r, formatReport (.obj []) (venGas true) (some (.str (str "a test")))
        (str "01/02/1984") = .ok r ∧
      ∀ pat ∈ blankLinePatterns true, SeqIn pat r) :=
  ⟨formatReport_total_blank.1 _ _ _ _
     (by intro kv hkv; rw [List.mem_singleton] at hkv; subst hkv; exact ⟨_, rfl⟩),
   formatReport_total_blank.2 true _ _⟩

set_option maxRecDepth 4000 in
/-- C7, counterexample: with the same record, sample type and scenario
text, two runs of the rendering step that draw different random values
produce different report strings — the Date of Birth line depends on
`Math.random()` and the clock, so the step is not a deterministic function
of `(record, sampleType, scenarioText)`. -/
theorem renderReport_nondeterministic :
    renderReport (.obj []) (some (.str (str "Arterial")))
        (some (.str (str "test scenario"))) ⟨0, 0, 0⟩ 2026 ≠
      renderReport (.obj []) (some (.str (str "Arterial")))
        (some (.str (str "test scenario"))) ⟨0, 1, 0⟩ 2026 := by
  intro h
  have h2 := congrArg (fun e => (Except.toOption e).getD []) h
  simp only at h2
  exact absurd h2 (by decide)

/-- C7 (amended): the rendering step is deterministic once the random
draws and the clock year are fixed — all of their influence flows through
the generated date-of-birth string, so two runs whose date-of-birth
computations agree produce identical reports. -/
theorem renderReport_deterministic (rec : Json) (gasType scenario : Option Json)
    (dr dr' : DobRand) (year year' : Int)
    (h : getDobJs scenario dr year = getDobJs scenario dr' year') :
    renderReport rec gasType scenario dr year =
      renderReport rec gasType scenario dr' year' := by
  simp only [renderReport, h]

set_option maxRecDepth 4000 in
/-- Witness for C7: an age in the scenario makes the age draw irrelevant,
so two different age draws with equal month/day draws give equal
reports. -/
theorem renderReport_deterministic_witness :
    renderReport (.obj []) (some (.str (str "Arterial")))
        (some (.str (str "70 year old man"))) ⟨5, 2, 3⟩ 2026 =
      renderReport (.obj []) (some (.str (str "Arterial")))
        (some (.str (str "70 year old man"))) ⟨60, 2, 3⟩ 2026 :=
  renderReport_deterministic _ _ _ _ _ _ _ (by rfl)

/-- Concrete all-blank reports used to show the two reference-range sets
are exclusive. -/
def blankVenousReport : Str :=
  (formatReport (.obj []) (venGas true) (some (.str (str "test")))
    (str "01/01/1980")).toOption.getD []

def blankArterialReport : Str :=
  (formatReport (.obj []) (venGas false) (some (.str (str "test")))
    (str "01/01/1980")).toOption.getD []

set_option maxRecDepth 8000 in
set_option maxHeartbeats 1000000 in
/-- C9: for every string-valued record, the report contains the supplied
`gasType` verbatim on its `Blood Type` line; it shows the venous
pH/PCO₂/PO₂ reference ranges exactly when `gasType` is `Venous` and the
arterial ones otherwise; and on the all-blank reports each set of ranges
is absent from the other sample type's report. -/
theorem gasType_threaded :
    (∀ (fields : List (Str × Json)) (scen dob g : Str), stringyFields fields →
       ∃ r, formatReport (.obj fields) (some (.str g)) (some (.str scen)) dob = .ok r ∧
         SeqIn (str "Blood Type        " ++ g ++ ['\n']) r ∧
         (g = str "Venous" →
           SeqIn (str "(7.310 - 7.410)") r ∧ SeqIn (str "(5.30 - 6.70)") r ∧
           SeqIn (str "(4.00 - 6.70)") r) ∧
         (g ≠ str "Venous" →
           SeqIn (str "(7.350 - 7.450)") r ∧ SeqIn (str "(4.67 - 6.00)") r ∧
           SeqIn (str "(10.67 - 13.33)") r)) ∧
    containsSeq (str "(7.350 - 7.450)") blankVenousReport = false ∧
    containsSeq (str "(7.310 - 7.410)") blankArterialReport = false := by
  refine ⟨?_, by decide, by decide⟩
  intro fields scen dob g h
  obtain ⟨gb, hg, hvcase, hacase⟩ := gasBlock_stringy h (some (.str g))
  obtain ⟨m, hm⟩ := midBlock_stringy h
  have hH : reportHeader (.obj fields) (some (.str g)) dob =
      .ok (headerPre (jsLookup fields (str "patientId"))
            (jsLookup fields (str "lastName")) (jsLookup fields (str "firstName"))
            (jsLookup fields (str "temperature")) (jsLookup fields (str "fio2"))
            dob ++
          (str "Blood Type        " ++ g ++ ['\n']) ++ sepLine) := rfl
  obtain ⟨b, hb⟩ : ∃ b, boxBlock (.obj fields) (some (.str scen)) = .ok b :=
    ⟨_, rfl⟩
  refine ⟨_, formatReport_eq_of_components hH hg hm hb, ?_, ?_, ?_⟩
  · exact ((((SeqIn.self _).of_middle _ _).append_right _).append_right _).append_right _
  · intro hgv
    have hv : isVenous (some (.str g)) = true := by simp [isVenous, hgv]
    obtain ⟨s1, s2, s3⟩ := hvcase hv
    exact ⟨((s1.append_left _).append_right _).append_right _,
           ((s2.append_left _).append_right _).append_right _,
           ((s3.append_left _).append_right _).append_right _⟩
  · intro hgnv
    have hv : isVenous (some (.str g)) = false := by
      simp [isVenous]
      exact hgnv
    obtain ⟨s1, s2, s3⟩ := hacase hv
    exact ⟨((s1.append_left _).append_right _).append_right _,
           ((s2.append_left _).append_right _).append_right _,
           ((s3.append_left _).append_right _).append_right _⟩

set_option maxRecDepth 4000 in
/-- Witness for C9 at a concrete one-field record and both sample
types. -/
theorem gasType_threaded_witness :
    (∃ r, formatReport (.obj [(str "ph", .str (str "7.40"))])
        (some (.str (str "Venous"))) (some (.str (str "a test")))
        (str "01/02/1984") = .ok r ∧
      SeqIn (str "Blood Type        " ++ str "Venous" ++ ['\n']) r ∧
      (str "Venous" = str "Venous" →
        SeqIn (str "(7.310 - 7.410)") r ∧ SeqIn (str "(5.30 - 6.70)") r ∧
        SeqIn (str "(4.00 - 6.70)") r) ∧
      (str "Venous" ≠ str "Venous" →
        SeqIn (str "(7.350 - 7.450)") r ∧ SeqIn (str "(4.67 - 6.00)") r ∧
        SeqIn (str "(10.67 - 13.33)") r)) ∧
    (∃ r, formatReport (.obj [(str "ph", .str (str "7.40"))])
        (some (.str (str "Arterial"))) (some (.str (str "a test")))
        (str "01/02/1984") = .ok r ∧
      SeqIn (str "Blood Type        " ++ str "Arterial" ++ ['\n']) r ∧
      (str "Arterial" = str "Venous" →
        SeqIn (str "(7.310 - 7.410)") r ∧ SeqIn (str "(5.30 - 6.70)") r ∧
        SeqIn (str "(4.00 - 6.70)") r) ∧
      (str "Arterial" ≠ str "Venous" →
        SeqIn (str "(7.350 - 7.450)") r ∧ SeqIn (str "(4.67 - 6.00)") r ∧
        SeqIn (str "(10.67 - 13.33)") r)) :=
  ⟨gasType_threaded.1 _ _ _ (str "Venous")
     (by intro kv hkv; rw [List.mem_singleton] at hkv; subst hkv; exact ⟨_, rfl⟩),
   gasType_threaded.1 _ _ _ (str "Arterial")
     (by intro kv hkv; rw [List.mem_singleton] at hkv; subst hkv; exact ⟨_, rfl⟩)⟩

/-! ## HTTP handlers

Each handler is a pure function of the request plus an environment giving
the outcomes of its external collaborators; it returns the HTTP response
(status and JSON body) together with the Job Store writes it performed. -/

structure HttpResp where
  status : Nat
  body : Json
deriving Repr

/-! ### Status endpoint (src/unnamed/part_005)

```js
const jobId = url.searchParams.get("jobId");
if (!jobId) return 400 {error: "Job ID is required."};
const jobData = await jobStore.get(jobId, { type: "json" });
if (!jobData) return 404 {error: "Job not found."};
return 200 JSON.stringify(jobData);
```
The store is an external durable map; its read is modelled as total, so
the handler's catch-all 500 (store outage) is outside this model.
`searchParams.get` yields `null` (here `none`) for an absent parameter and
the empty string for `?jobId=`; both are falsy.  A stored record that is
itself falsy JSON (e.g. `null`) also takes the not-found branch. -/
def getStatusHandler (jobIdParam : Option Str) (store : Str → Option Json) :
    HttpResp × (Str → Option Json) :=
  let bad : HttpResp :=
    { status := 400, body := .obj [(str "error", .str (str "Job ID is required."))] }
  let notFound : HttpResp :=
    { status := 404, body := .obj [(str "error", .str (str "Job not found."))] }
  match jobIdParam with
  | none => (bad, store)
  | some jobId =>
    if jobId = [] then (bad, store)
    else
      match store jobId with
      | none => (notFound, store)
      | some jobData =>
        if jsFalsy (some jobData) then (notFound, store)
        else ({ status := 200, body := jobData }, store)

/-- A store with one record, and none under the empty key. -/
def store0 : Str → Option Json := fun k =>
  if k = str "abc" then
    some (.obj [(str "status", .str (str "processing"))])
  else none

/-- C5, counterexample: for the request `?jobId=` the parameter is present
but empty; no record exists for the empty identifier, yet the endpoint
answers 400, not the 404 the claim requires for an unknown identifier. -/
theorem getStatus_empty_jobId_counterexample :
    (getStatusHandler (some []) store0).1.status = 400 ∧ store0 [] = none :=
  ⟨rfl, rfl⟩

/-- C5 (amended): the status endpoint returns 400 when the `jobId`
parameter is absent *or empty*, 404 when a non-empty identifier has no
(truthy) record, and otherwise the stored record verbatim with 200; it
never writes, and repeated calls on the same store state agree. -/
theorem getStatus_spec :
    (∀ store, (getStatusHandler none store).1.status = 400) ∧
    (∀ store, (getStatusHandler (some []) store).1.status = 400) ∧
    (∀ store (j : Str), j ≠ [] → store j = none →
       getStatusHandler (some j) store =
         ({ status := 404,
            body := .obj [(str "error", .str (str "Job not found."))] }, store)) ∧
    (∀ store (j : Str) rec, j ≠ [] → store j = some rec →
       jsFalsy (some rec) = false →
       getStatusHandler (some j) store = ({ status := 200, body := rec }, store)) ∧
    (∀ p store, (getStatusHandler p store).2 = store) ∧
    (∀ p store,
       getStatusHandler p ((getStatusHandler p store).2) =
         getStatusHandler p store) := by
  refine ⟨fun store => rfl, fun store => rfl, ?_, ?_, ?_, ?_⟩
  · intro store j hne hnone
    simp [getStatusHandler, hne, hnone]
  · intro store j rec hne hrec hfalsy
    simp [getStatusHandler, hne, hrec, hfalsy]
  · intro p store
    rcases p with _ | j
    · rfl
    · by_cases hj : j = []
      · simp [getStatusHandler, hj]
      · rcases hr : store j with _ | rec <;>
          simp [getStatusHandler, hj, hr] <;>
          rcases hf : jsFalsy (some rec) <;> simp [hf]
  · intro p store
    rcases p with _ | j
    · rfl
    · by_cases hj : j = []
      · simp [getStatusHandler, hj]
      · rcases hr : store j with _ | rec <;>
          simp [getStatusHandler, hj, hr] <;>
          rcases hf : jsFalsy (some rec) <;> simp [getStatusHandler, hj, hr, hf]

/-- Witness for C5 at concrete requests against `store0`. -/
theorem getStatus_spec_witness :
    getStatusHandler (some (str "zzz")) store0 =
      ({ status := 404,
         body := .obj [(str "error", .str (str "Job not found."))] }, store0) ∧
    getStatusHandler (some (str "abc")) store0 =
      ({ status := 200,
         body := .obj [(str "status", .str (str "processing"))] }, store0) :=
  ⟨getStatus_spec.2.2.1 store0 (str "zzz") (by decide) rfl,
   getStatus_spec.2.2.2.1 store0 (str "abc")
     (.obj [(str "status", .str (str "processing"))]) (by decide) rfl rfl⟩

/-! ### Invoke endpoints (createJob)

Two variants exist: `src/netlify/functions/generate-report-invoke.js`
performs no validation and stamps a timestamp; `src/unnamed/part_006`
rejects a falsy `scenario` with 400 before writing.  Both destructure
`{scenario, gasType}` from the request JSON, write one `processing`
record under a fresh identifier (`JSON.stringify` drops `undefined`
fields), fire the background function without awaiting it, and answer
202 `{jobId}`; any exception (body parse, store write) becomes a 500. -/

/-- `const { scenario, gasType } = JSON.parse(body)`. -/
def destructureBody (body : Str) : Except Str (Option Json × Option Json) :=
  match jsonParse body with
  | none => .error (str "SyntaxError: request body is not valid JSON")
  | some .null => .error (str "TypeError: cannot destructure null")
  | some (.obj fields) =>
    .ok (jsLookup fields (str "scenario"), jsLookup fields (str "gasType"))
  | some _ => .ok (none, none)

/-- A field of a `setJSON` record: dropped when the value is `undefined`. -/
def optField (name : Str) (v : Option Json) : List (Str × Json) :=
  match v with
  | some j => [(name, j)]
  | none => []

def invoke500 : HttpResp :=
  { status := 500,
    body := .obj [(str "error", .str (str "Failed to start report generation."))] }

/-- netlify/functions/generate-report-invoke.js: no validation. -/
def invokeHandler (body : Str) (freshId : Str) (nowIso : Str) (setOk : Bool) :
    HttpResp × List (Str × Json) :=
  match destructureBody body with
  | .error _ => (invoke500, [])
  | .ok (scenario, gasType) =>
    let record := Json.obj ([(str "status", .str (str "processing"))] ++
      optField (str "scenario") scenario ++ optField (str "gasType") gasType ++
      [(str "timestamp", .str nowIso)])
    if setOk then
      ({ status := 202, body := .obj [(str "jobId", .str freshId)] },
       [(freshId, record)])
    else (invoke500, [])

/-- src/unnamed/part_006: validates `scenario` before creating the job. -/
def invokeHandlerP6 (body : Str) (freshId : Str) (setOk : Bool) :
    HttpResp × List (Str × Json) :=
  match destructureBody body with
  | .error _ => (invoke500, [])
  | .ok (scenario, gasType) =>
    if jsFalsy scenario then
      ({ status := 400,
         body := .obj [(str "error", .str (str "Scenario is required."))] }, [])
    else
      let record := Json.obj ([(str "status", .str (str "processing"))] ++
        optField (str "scenario") scenario ++ optField (str "gasType") gasType)
      if setOk then
        ({ status := 202, body := .obj [(str "jobId", .str freshId)] },
         [(freshId, record)])
      else (invoke500, [])

/-- C4, counterexample: the deployed invoke endpoint accepts a body with
no scenario at all — it creates the job (one store write, without a
`scenario` field) and answers 202, where the claim requires a 400
validation failure and no write. -/
theorem invoke_no_validation :
    invokeHandler (str "\x7b\"gasType\":\"Arterial\"\x7d") (str "job-1")
        (str "2026-01-01T00:00:00.000Z") true =
      ({ status := 202, body := .obj [(str "jobId", .str (str "job-1"))] },
       [(str "job-1",
         Json.obj [(str "status", .str (str "processing")),
                   (str "gasType", .str (str "Arterial")),
                   (str "timestamp", .str (str "2026-01-01T00:00:00.000Z"))])]) :=
  rfl

/-- C4 (amended): the part_006 variant behaves as claimed — 400 with no
write when `scenario` is missing or empty (falsy), and otherwise exactly
one write `{status: "processing", scenario, gasType}` under the fresh
identifier before a 202 carrying it (500 and no persisted write when the
store write fails); the deployed netlify variant skips the validation and
additionally stamps a `timestamp` field. -/
theorem createJob_spec :
    (∀ (body id : Str) (ok : Bool) (sc gt : Option Json),
       destructureBody body = .ok (sc, gt) → jsFalsy sc = true →
       invokeHandlerP6 body id ok =
         ({ status := 400,
            body := .obj [(str "error", .str (str "Scenario is required."))] }, [])) ∧
    (∀ (body id : Str) (sc gt : Option Json),
       destructureBody body = .ok (sc, gt) → jsFalsy sc = false →
       invokeHandlerP6 body id true =
         ({ status := 202, body := .obj [(str "jobId", .str id)] },
          [(id, Json.obj ([(str "status", .str (str "processing"))] ++
             optField (str "scenario") sc ++ optField (str "gasType") gt))])) ∧
    (∀ (body id : Str) (sc gt : Option Json),
       destructureBody body = .ok (sc, gt) → jsFalsy sc = false →
       invokeHandlerP6 body id false = (invoke500, [])) ∧
    (∀ (body id now : Str) (sc gt : Option Json),
       destructureBody body = .ok (sc, gt) →
       invokeHandler body id now true =
         ({ status := 202, body := .obj [(str "jobId", .str id)] },
          [(id, Json.obj ([(str "status", .str (str "processing"))] ++
             optField (str "scenario") sc ++ optField (str "gasType") gt ++
             [(str "timestamp", .str now)]))])) := by
  refine ⟨?_, ?_, ?_, ?_⟩
  · intro body id ok sc gt hd hf
    simp [invokeHandlerP6, hd, hf]
  · intro body id sc gt hd hf
    simp [invokeHandlerP6, hd, hf]
  · intro body id sc gt hd hf
    simp [invokeHandlerP6, hd, hf]
  · intro body id now sc gt hd
    simp [invokeHandler, hd]

/-- Witness for C4: a missing scenario, an empty scenario, a good request,
a failing store, and the unvalidated variant, all concrete. -/
theorem createJob_spec_witness :
    invokeHandlerP6 (str "\x7b\"gasType\":\"Arterial\"\x7d") (str "j1") true =
      ({ status := 400,
         body := .obj [(str "error", .str (str "Scenario is required."))] }, []) ∧
    invokeHandlerP6 (str "\x7b\"scenario\":\"\"\x7d") (str "j1") true =
      ({ status := 400,
         body := .obj [(str "error", .str (str "Scenario is required."))] }, []) ∧
    invokeHandlerP6 (str "\x7b\"scenario\":\"chest pain\",\"gasType\":\"Venous\"\x7d")
        (str "j2") true =
      ({ status := 202, body := .obj [(str "jobId", .str (str "j2"))] },
       [(str "j2", Json.obj ([(str "status", .str (str "processing"))] ++
          optField (str "scenario") (some (.str (str "chest pain"))) ++
          optField (str "gasType") (some (.str (str "Venous")))))]) ∧
    invokeHandlerP6 (str "\x7b\"scenario\":\"chest pain\"\x7d") (str "j3") false =
      (invoke500, []) ∧
    invokeHandler (str "\x7b\"scenario\":\"chest pain\"\x7d") (str "j4")
        (str "2026-02-03T04:05:06.000Z") true =
      ({ status := 202, body := .obj [(str "jobId", .str (str "j4"))] },
       [(str "j4", Json.obj ([(str "status", .str (str "processing"))] ++
          optField (str "scenario") (some (.str (str "chest pain"))) ++
          optField (str "gasType") none ++
          [(str "timestamp", .str (str "2026-02-03T04:05:06.000Z"))]))]) :=
  ⟨createJob_spec.1 _ _ _ none (some (.str (str "Arterial"))) rfl rfl,
   createJob_spec.1 _ _ _ (some (.str [])) none rfl rfl,
   createJob_spec.2.1 _ _ (some (.str (str "chest pain")))
     (some (.str (str "Venous"))) rfl rfl,
   createJob_spec.2.2.1 _ _ (some (.str (str "chest pain"))) none rfl rfl,
   createJob_spec.2.2.2 _ _ _ (some (.str (str "chest pain"))) none rfl⟩

/-! ### Background worker
(`src/netlify/functions/generate-report-process-background.js`)

```js
export default async (req) => {
    const { jobId } = await req.json();          // OUTSIDE the try block
    const reportStore = getStore("reports");
    try {
        const jobData = await reportStore.get(jobId, { type: "json" });
        if (!jobData) throw new Error(`Job ${jobId} not found.`);
        const { scenario, gasType } = jobData;
        ... fetch(apiURL, {...}) ...
        if (!dataResponse.ok) throw new Error(`Google API Error: ...`);
        const dataResult = await dataResponse.json();
        const reportData = JSON.parse(dataResult.candidates[0].content.parts[0].text);
        const dob = getDobFromScenario(scenario);
        let formattedReport = ...;
        await reportStore.setJSON(jobId, { status: "completed", report: formattedReport });
    } catch (error) {
        await reportStore.setJSON(jobId, {
            status: "failed",
            error: error.message || "An unknown error occurred in the background task.",
        });
    }
};
```
The environment supplies the store read, the fetch outcome, the per-record
store-write outcome, the random draws and the clock year.  The returned
list holds the successful Job Store writes, in order. -/

structure GeminiResp where
  status : Nat
  bodyText : Str

structure BgEnv where
  getJob : Except Str (Option Json)
  fetchResult : Except Str GeminiResp
  setResult : Json → Except Str Unit
  dobRand : DobRand
  year : Int

inductive BgOutcome where
  | done
  | escaped (msg : Str)
deriving Repr, DecidableEq

/-- `const { jobId } = await req.json()` — outside the `try`, so a body
that is not JSON (or is `null`) throws to the caller.  A non-string
`jobId` reaches the external store client coerced to a string. -/
def extractJobId (body : Str) : Except Str Str :=
  match jsonParse body with
  | none => .error (str "SyntaxError: request body is not valid JSON")
  | some .null => .error (str "TypeError: cannot destructure null")
  | some (.obj fields) => .ok (jsToStringU (jsLookup fields (str "jobId")))
  | some _ => .ok (str "undefined")

/-- `JSON.parse(dataResult.candidates[0].content.parts[0].text)` including
the `dataResponse.json()` parse of the response body. -/
def extractModelJson (respBody : Str) : Except Str Json := do
  let dataResult ← match jsonParse respBody with
    | some v => Except.ok v
    | none => Except.error (str "SyntaxError: response body is not valid JSON")
  let candidates ← jsProp dataResult (str "candidates")
  let c0 ← jsIndex candidates 0
  let content ← jsPropU c0 (str "content")
  let parts ← jsPropU content (str "parts")
  let p0 ← jsIndex parts 0
  let text ← jsPropU p0 (str "text")
  match jsonParse (jsToStringU text) with
  | some v => Except.ok v
  | none => Except.error (str "SyntaxError: model output is not valid JSON")

/-- The body of the `try` block: job lookup, external call, parsing,
date-of-birth and formatting.  (The prompt template is pure string
construction with no failure path and no effect on the result, and is not
modelled.) -/
def bgTryBody (jobKey : Str) (env : BgEnv) : Except Str Str := do
  let jobData ← env.getJob
  if jsFalsy jobData then
    throw (str "Job " ++ jobKey ++ str " not found.")
  else
    let jd := jobData.getD .null
    let scenario ← jsProp jd (str "scenario")
    let gasType ← jsProp jd (str "gasType")
    let resp ← env.fetchResult
    if respOk resp.status = false then
      throw (str "Google API Error: " ++ natToStr resp.status)
    else
      let reportData ← extractModelJson resp.bodyText
      let dob ← getDobJs scenario env.dobRand env.year
      formatReport reportData gasType scenario dob

def completedRec (report : Str) : Json :=
  .obj [(str "status", .str (str "completed")), (str "report", .str report)]

/-- The catch block's record: `error.message || "An unknown error…"`. -/
def failedRec (msg : Str) : Json :=
  .obj [(str "status", .str (str "failed")),
        (str "error", .str (if msg = [] then
          str "An unknown error occurred in the background task." else msg))]

/-- The catch block: write the failure record; if even that write rejects,
the exception escapes the handler (there is no inner try). -/
def runCatch (env : BgEnv) (jobKey : Str) (msg : Str)
    (prior : List (Str × Json)) : BgOutcome × List (Str × Json) :=
  match env.setResult (failedRec msg) with
  | .ok _ => (.done, prior ++ [(jobKey, failedRec msg)])
  | .error m2 => (.escaped m2, prior)

def runBackgroundJob (body : Str) (env : BgEnv) :
    BgOutcome × List (Str × Json) :=
  match extractJobId body with
  | .error m => (.escaped m, [])
  | .ok jobKey =>
    match bgTryBody jobKey env with
    | .ok report =>
      match env.setResult (completedRec report) with
      | .ok _ => (.done, [(jobKey, completedRec report)])
      | .error m => runCatch env jobKey m []
    | .error m => runCatch env jobKey m []

/-- An environment whose store and fetch cooperate. -/
def bgEnvOk : BgEnv :=
  { getJob := .ok (some (.obj [(str "scenario", .str (str "a test")),
      (str "gasType", .str (str "Arterial"))]))
    fetchResult := .ok ⟨200, str "\x7b\"candidates\":[\x7b\"content\":\x7b\"parts\":[\x7b\"text\":\"\x7b\\\"ph\\\":\\\"7.40\\\"\x7d\"\x7d]\x7d\x7d]\x7d"⟩
    setResult := fun _ => .ok ()
    dobRand := ⟨0, 0, 0⟩
    year := 2026 }

/-- C1, counterexample: a request body that is not valid JSON makes
`await req.json()` throw *before* the protected region — the exception
escapes the handler and no terminal record is written, although every
collaborator cooperates. -/
theorem runBackgroundJob_escapes_on_bad_body :
    runBackgroundJob (str "not json") bgEnvOk =
      (.escaped (str "SyntaxError: request body is not valid JSON"), []) := rfl

/-- C1 (amended): once the request body yields a `jobId` (it parses as
JSON and is not null) and the Job Store accepts writes, the worker never
escapes: it ends with exactly one terminal write under that key — a
completed report, or `{status: "failed", error: <non-empty>}` on a failure
at any step inside the try block (lookup, external call, parsing,
formatting, or the success write).  A body that does not parse as JSON
throws before the protected region with no write, and if the catch-block
write itself rejects, that exception escapes. -/
theorem runBackgroundJob_spec :
    (∀ (body : Str) (env : BgEnv) (k : Str),
       extractJobId body = .ok k →
       (∀ m, env.setResult (failedRec m) = .ok ()) →
       (∃ rep, runBackgroundJob body env = (.done, [(k, completedRec rep)])) ∨
       (∃ msg, msg ≠ [] ∧
         runBackgroundJob body env =
           (.done, [(k, Json.obj [(str "status", .str (str "failed")),
                                  (str "error", .str msg)])]))) ∧
    (∀ (body : Str) (env : BgEnv), jsonParse body = none →
       ∃ m, runBackgroundJob body env = (.escaped m, [])) ∧
    (∀ (body : Str) (env : BgEnv) (k m m2 : Str),
       extractJobId body = .ok k → bgTryBody k env = .error m →
       env.setResult (failedRec m) = .error m2 →
       runBackgroundJob body env = (.escaped m2, [])) := by
  refine ⟨?_, ?_, ?_⟩
  · intro body env k hk hset
    rcases htry : bgTryBody k env with m | report
    · right
      refine ⟨if m = [] then
          str "An unknown error occurred in the background task." else m, ?_, ?_⟩
      · split
        · decide
        · assumption
      · show runBackgroundJob body env = (.done, [(k, failedRec m)])
        simp [runBackgroundJob, hk, htry, runCatch, hset m]
    · rcases hw : env.setResult (completedRec report) with m | u
      · right
        refine ⟨if m = [] then
            str "An unknown error occurred in the background task." else m, ?_, ?_⟩
        · split
          · decide
          · assumption
        · show runBackgroundJob body env = (.done, [(k, failedRec m)])
          simp [runBackgroundJob, hk, htry, hw, runCatch, hset m]
      · left
        exact ⟨report, by simp [runBackgroundJob, hk, htry, hw]⟩
  · intro body env hparse
    exact ⟨str "SyntaxError: request body is not valid JSON",
      by simp [runBackgroundJob, extractJobId, hparse]⟩
  · intro body env k m m2 hk htry hset
    simp [runBackgroundJob, hk, htry, runCatch, hset]

/-- An environment whose fetch rejects with a network error. -/
def bgEnvNetDown : BgEnv :=
  { bgEnvOk with fetchResult := .error (str "TypeError: fetch failed") }

/-- An environment where both the fetch and every store write fail. -/
def bgEnvAllDown : BgEnv :=
  { bgEnvNetDown with setResult := fun _ => .error (str "store unavailable") }

/-- An environment that rejects the completed-report write but accepts the
catch block's failure write: the try body succeeds, the success write
throws into the catch, and the catch records the failure. -/
def bgEnvCompletedWriteFails : BgEnv :=
  { bgEnvOk with
    setResult := fun r =>
      match r with
      | .obj ((_, .str s) :: _) =>
        if s = str "completed" then .error (str "store hiccup") else .ok ()
      | _ => .ok () }

/-- Witness for C1: a well-formed body with a failing fetch ends in a
failed write; so does a failing success write whose catch write is
accepted; a malformed body escapes; a failing catch write escapes. -/
theorem runBackgroundJob_spec_witness :
    ((∃ rep, runBackgroundJob (str "\x7b\"jobId\":\"j1\"\x7d") bgEnvNetDown =
        (.done, [(str "j1", completedRec rep)])) ∨
     (∃ msg, msg ≠ [] ∧
       runBackgroundJob (str "\x7b\"jobId\":\"j1\"\x7d") bgEnvNetDown =
         (.done, [(str "j1", Json.obj [(str "status", .str (str "failed")),
                                       (str "error", .str msg)])]))) ∧
    ((∃ rep, runBackgroundJob (str "\x7b\"jobId\":\"j1\"\x7d")
          bgEnvCompletedWriteFails =
        (.done, [(str "j1", completedRec rep)])) ∨
     (∃ msg, msg ≠ [] ∧
       runBackgroundJob (str "\x7b\"jobId\":\"j1\"\x7d")
           bgEnvCompletedWriteFails =
         (.done, [(str "j1", Json.obj [(str "status", .str (str "failed")),
                                       (str "error", .str msg)])]))) ∧
    (∃ m, runBackgroundJob (str "\x7b\x7b") bgEnvNetDown = (.escaped m, [])) ∧
    runBackgroundJob (str "\x7b\"jobId\":\"j1\"\x7d") bgEnvAllDown =
      (.escaped (str "store unavailable"), []) :=
  ⟨runBackgroundJob_spec.1 _ bgEnvNetDown (str "j1") (by rfl) (fun m => rfl),
   runBackgroundJob_spec.1 _ bgEnvCompletedWriteFails (str "j1") (by rfl)
     (fun m => rfl),
   runBackgroundJob_spec.2.1 _ bgEnvNetDown (by rfl),
   runBackgroundJob_spec.2.2 _ bgEnvAllDown (str "j1")
     (str "TypeError: fetch failed") (str "store unavailable") (by rfl) (by rfl)
     (by rfl)⟩

end Simgas
